import Mathlib

/-!
# Socket creation (`net/socket/socket.c`)

A shallow embedding of `psock_socket` together with the properties of the
endpoint-creation contract that are checked against it.

Conventions of the embedding

* C `int` values are `Int`; the bitwise operators are the two's complement
  ones (`Int.lor`, `Int.lnot`, and `int_and`, which equals `Int.land`).
* The fields `s_domain`, `s_type` and `s_proto` of `struct socket` are
  unsigned and narrower than `int`: a store converts the value modulo
  `2 ^ bits` (`to_unsigned`), a read gives the stored value back.
* Pointers are `Option Nat`: `none` is `NULL`, `some a` is the address `a`.
* The connection structures live in a memory `Mem`, indexed by address.
* A call through a function pointer that is `NULL`, or a store through a
  `NULL` connection pointer, has no defined behaviour: the embedding
  returns `none` there.
* Header constants (`sys/socket.h`, `errno.h`, `nuttx/net/net.h`), the
  usrsock descriptor and the registry lookup `net_sockif` are not part of
  the translated file; they are the fields of `Config`.
* Every call that leaves `psock_socket` (the usrsock setup, the registry
  lookup, a native setup) is recorded, in order, in `Outcome.calls`.
-/

namespace NetSocket

/-! ## Bitwise AND on `int` -/

/-- Bitwise AND of two C `int` values in two's complement.  It is
`Int.land`, with the mixed-sign cases `m & ~n` written as `m ^ (m & n)` so
that the operation evaluates on numerals. -/
def int_and : Int → Int → Int
  | Int.ofNat m, Int.ofNat n => Int.ofNat (m &&& n)
  | Int.ofNat m, Int.negSucc n => Int.ofNat (m ^^^ (m &&& n))
  | Int.negSucc m, Int.ofNat n => Int.ofNat (n ^^^ (n &&& m))
  | Int.negSucc m, Int.negSucc n => Int.negSucc (m ||| n)

/-! ## Data model -/

/-- The part of `struct socket_conn_s` that `psock_socket` touches: the
flags field `s_flags`.  Its declaration is in a header outside the
translated file; the only operation on it is `|=` with a flag constant,
which stays within any width that holds the constants. -/
structure socket_conn_s where
  s_flags : Nat
  deriving DecidableEq, Repr

/-- The user allocated `struct socket`.  `s_domain`, `s_type` and `s_proto`
are unsigned fields narrower than `int` (their widths are fields of
`Config`); `s_conn` and `s_sockif` are pointers. -/
structure socket where
  s_domain : Nat
  s_type : Nat
  s_proto : Nat
  s_conn : Option Nat
  s_sockif : Option Nat
  deriving DecidableEq, Repr

/-- Memory holding the connection structures, by address. -/
abbrev Mem := Nat → socket_conn_s

/-- The type of `si_setup`: it receives the socket (by pointer, so it may
write it) and the memory, and returns its `int` result with the socket and
the memory as it left them. -/
abbrev Setup := socket → Mem → Int × socket × Mem

/-- A backend descriptor `struct sock_intf_s`: its address and its
`si_setup` function pointer (`none` is `NULL`). -/
structure sock_intf_s where
  addr : Nat
  si_setup : Option Setup

/-- What the translated file takes from its headers and collaborators.
`s_domain_bits`, `s_type_bits` and `s_proto_bits` are the widths of the
fields of `struct socket`, which is declared in a header outside the
translated file (`uint8_t`, `uint8_t` and `uint16_t` there: 8, 8 and 16). -/
structure Config where
  CONFIG_NET_USRSOCK : Bool
  s_domain_bits : Nat
  s_type_bits : Nat
  s_proto_bits : Nat
  SOCK_CLOEXEC : Int
  SOCK_NONBLOCK : Int
  SOCK_TYPE_MASK : Int
  _SF_NONBLOCK : Nat
  _SF_INITD : Nat
  EINVAL : Nat
  ENOSYS : Nat
  ENOTSUP : Nat
  ENETDOWN : Nat
  EAFNOSUPPORT : Nat
  g_usrsock_sockif : sock_intf_s
  net_sockif : Int → Int → Int → Option sock_intf_s

/-- A call made by `psock_socket`, with its arguments. -/
inductive Call where
  | usrsock_setup (psock : socket)
  | net_sockif (domain type protocol : Int)
  | si_setup (sockif : Nat) (psock : socket)
  deriving DecidableEq, Repr

/-- What a returning call of `psock_socket` leaves: the returned `int`, the
socket structure, the memory and the calls it made. -/
structure Outcome where
  ret : Int
  psock : socket
  mem : Mem
  calls : List Call

/-! ## `psock_socket` -/

/-- The bits accepted in `type`:
`SOCK_CLOEXEC | SOCK_NONBLOCK | SOCK_TYPE_MASK` (line 87). -/
def type_bits (cfg : Config) : Int :=
  Int.lor (Int.lor cfg.SOCK_CLOEXEC cfg.SOCK_NONBLOCK) cfg.SOCK_TYPE_MASK

/-- The conversion of an `int` to an unsigned field of `bits` bits, as a
store to such a field performs it: the value modulo `2 ^ bits`. -/
def to_unsigned (bits : Nat) (x : Int) : Nat := (x % ((2 ^ bits : Nat) : Int)).toNat

/-- Lines 94-97: the initialisation of the socket structure; each store
converts the `int` to the type of the field. -/
def psock_init (cfg : Config) (domain type protocol : Int) (psock : socket) : socket :=
  { psock with
    s_domain := to_unsigned cfg.s_domain_bits domain
    s_proto := to_unsigned cfg.s_proto_bits protocol
    s_conn := none
    s_type := to_unsigned cfg.s_type_bits (int_and type cfg.SOCK_TYPE_MASK) }

/-- The store `conn->s_flags |= bits`. -/
def or_flags (mem : Mem) (conn : Nat) (bits : Nat) : Mem :=
  Function.update mem conn { s_flags := (mem conn).s_flags ||| bits }

/-- Lines 149-156: `_SF_NONBLOCK` when `type & SOCK_NONBLOCK`, then
`_SF_INITD`. -/
def apply_flags (cfg : Config) (type : Int) (conn : Nat) (mem : Mem) : Mem :=
  let mem1 := if int_and type cfg.SOCK_NONBLOCK ≠ 0 then or_flags mem conn cfg._SF_NONBLOCK else mem
  or_flags mem1 conn cfg._SF_INITD

/-- Lines 120-163 of `psock_socket`: the registry lookup and the native
setup.  `ret` is the local variable as the usrsock block left it (it is
read only under `CONFIG_NET_USRSOCK`, line 132).  The lookup of line 122
takes the argument `domain` and the fields `s_type` and `s_proto` as read
back from the structure. -/
def psock_socket_native (cfg : Config) (domain type : Int) (ret : Int)
    (psock : socket) (mem : Mem) (calls : List Call) : Option Outcome :=
  let calls1 := calls ++ [Call.net_sockif domain (psock.s_type : Int) (psock.s_proto : Int)]
  match cfg.net_sockif domain (psock.s_type : Int) (psock.s_proto : Int) with
  | none =>
    if cfg.CONFIG_NET_USRSOCK then some ⟨ret, psock, mem, calls1⟩
    else some ⟨-(cfg.EAFNOSUPPORT : Int), psock, mem, calls1⟩
  | some sockif =>
    match sockif.si_setup with
    | none => none
    | some setup =>
      let psock1 := { psock with s_sockif := some sockif.addr }
      let r := setup psock1 mem
      let calls2 := calls1 ++ [Call.si_setup sockif.addr psock1]
      if 0 ≤ r.1 then
        match r.2.1.s_conn with
        | none => none
        | some conn => some ⟨r.1, r.2.1, apply_flags cfg type conn r.2.2, calls2⟩
      else some ⟨r.1, r.2.1, r.2.2, calls2⟩

/-- The function `psock_socket` (lines 81-164).  `CONFIG_NET_USRSOCK`
selects the conditional block of lines 99-118. -/
def psock_socket (cfg : Config) (domain type protocol : Int)
    (psock : socket) (mem : Mem) : Option Outcome :=
  if int_and type (Int.lnot (type_bits cfg)) ≠ 0 then
    some ⟨-(cfg.EINVAL : Int), psock, mem, []⟩
  else
    let psock0 := psock_init cfg domain type protocol psock
    if cfg.CONFIG_NET_USRSOCK then
      let sockif := cfg.g_usrsock_sockif
      let psock1 := { psock0 with s_sockif := some sockif.addr }
      match sockif.si_setup with
      | none => none
      | some setup =>
        let r := setup psock1 mem
        if r.1 = 0 ∨ (r.1 ≠ -(cfg.ENOSYS : Int) ∧ r.1 ≠ -(cfg.ENOTSUP : Int)
            ∧ r.1 ≠ -(cfg.ENETDOWN : Int)) then
          some ⟨r.1, r.2.1, r.2.2, [Call.usrsock_setup psock1]⟩
        else
          psock_socket_native cfg domain type r.1 r.2.1 r.2.2 [Call.usrsock_setup psock1]
    else
      psock_socket_native cfg domain type 0 psock0 mem []

/-! ## Vocabulary of the statements -/

/-- The `type` passes the test of line 87: no bit outside `type_bits`. -/
abbrev valid_type (cfg : Config) (type : Int) : Prop :=
  int_and type (Int.lnot (type_bits cfg)) = 0

/-- The value read back from `s_type` after the store of line 97. -/
def stored_type (cfg : Config) (type : Int) : Int :=
  ((to_unsigned cfg.s_type_bits (int_and type cfg.SOCK_TYPE_MASK) : Nat) : Int)

/-- The value read back from `s_proto` after the store of line 95. -/
def stored_proto (cfg : Config) (protocol : Int) : Int :=
  ((to_unsigned cfg.s_proto_bits protocol : Nat) : Int)

/-- The socket structure handed to the usrsock setup at line 105: the
initialised structure with `s_sockif = &g_usrsock_sockif` (lines 94-103). -/
def usrsock_arg (cfg : Config) (domain type protocol : Int) (psock : socket) : socket :=
  { psock_init cfg domain type protocol psock with
    s_sockif := some cfg.g_usrsock_sockif.addr }

/-- The socket handed to a native setup at line 144: the socket as it
stands, with `s_sockif` set to the descriptor (line 142). -/
def native_arg (sockif : sock_intf_s) (psock : socket) : socket :=
  { psock with s_sockif := some sockif.addr }

/-- A setup call left the fields that the caller wrote (`s_domain`,
`s_type`, `s_proto`, `s_sockif`) as they were: only `s_conn` may differ
between the socket before and after the call. -/
abbrev keeps_socket (before after : socket) : Prop :=
  after = { before with s_conn := after.s_conn }

/-- The result `e` is one of the three codes on which line 113 does not
return: `-ENOSYS`, `-ENOTSUP`, `-ENETDOWN`. -/
abbrev fallback_code (cfg : Config) (e : Int) : Prop :=
  e = -(cfg.ENOSYS : Int) ∨ e = -(cfg.ENOTSUP : Int) ∨ e = -(cfg.ENETDOWN : Int)

/-- The three fallback errno values are positive, as errno values are. -/
abbrev errno_positive (cfg : Config) : Prop :=
  0 < cfg.ENOSYS ∧ 0 < cfg.ENOTSUP ∧ 0 < cfg.ENETDOWN

/-- The state in which `psock_socket` arrives at the registry lookup of
line 122, with the calls made so far.  Either usrsock is not configured and
nothing but the initialisation has happened, or the usrsock setup has run
on `usrsock_arg` and answered with a non-zero fallback code, leaving the
socket `ps1` and the memory `mem1`. -/
def at_lookup (cfg : Config) (domain type protocol : Int) (psock : socket) (mem : Mem)
    (ps1 : socket) (mem1 : Mem) (calls : List Call) : Prop :=
  (cfg.CONFIG_NET_USRSOCK = false ∧ ps1 = psock_init cfg domain type protocol psock
      ∧ mem1 = mem ∧ calls = [])
  ∨ (cfg.CONFIG_NET_USRSOCK = true ∧ ∃ (setup : Setup) (e : Int),
      cfg.g_usrsock_sockif.si_setup = some setup
      ∧ setup (usrsock_arg cfg domain type protocol psock) mem = (e, ps1, mem1)
      ∧ e ≠ 0 ∧ fallback_code cfg e
      ∧ calls = [Call.usrsock_setup (usrsock_arg cfg domain type protocol psock)])

/-- The socket structure a call hands to a backend setup, if the call is
one. -/
def Call.setup_arg : Call → Option socket
  | Call.usrsock_setup ps => some ps
  | Call.net_sockif _ _ _ => none
  | Call.si_setup _ ps => some ps

/-- What the caller sees of an outcome apart from the memory: the returned
value, the socket structure and the calls made. -/
def Outcome.view (out : Outcome) : Int × socket × List Call :=
  (out.ret, out.psock, out.calls)

/-- The call is the usrsock setup of line 105. -/
def Call.is_usrsock_setup : Call → Bool
  | Call.usrsock_setup _ => true
  | _ => false

/-- The call is the registry lookup of line 122. -/
def Call.is_lookup : Call → Bool
  | Call.net_sockif _ _ _ => true
  | _ => false

/-- The call is a native setup, line 144. -/
def Call.is_native_setup : Call → Bool
  | Call.si_setup _ _ => true
  | _ => false

/-- The behaviour of a backend setup that the endpoint invariant is stated
for: called on a socket whose connection is null, it leaves the connection
non-null exactly when it returns a non-negative value, and it does not
write `s_sockif`. -/
def setup_contract (f : Setup) : Prop :=
  ∀ (ps : socket) (mem : Mem), ps.s_conn = none →
    ((f ps mem).2.1.s_conn ≠ none ↔ 0 ≤ (f ps mem).1)
      ∧ (f ps mem).2.1.s_sockif = ps.s_sockif

/-! ## Sample backends and configurations -/

/-- A native setup that allocates the connection at address 1 with all
flags clear and succeeds. -/
def inet_setup : Setup := fun ps mem =>
  (0, { ps with s_conn := some 1 }, Function.update mem 1 { s_flags := 0 })

/-- A setup that fails with the given result and touches nothing. -/
def failing_setup (e : Int) : Setup := fun ps mem => (e, ps, mem)

/-- A usrsock setup that allocates the connection at address 7 with all
flags clear and succeeds. -/
def usrsock_setup_ok : Setup := fun ps mem =>
  (0, { ps with s_conn := some 7 }, Function.update mem 7 { s_flags := 0 })

/-- A configuration with the usual values of the header constants, a
usrsock descriptor at address 200 and a registry holding one native
descriptor, at address 100, for `(PF_INET, SOCK_STREAM, any protocol)`. -/
def sample_cfg (usrsock : Bool) (proxy native : Setup) : Config where
  CONFIG_NET_USRSOCK := usrsock
  s_domain_bits := 8
  s_type_bits := 8
  s_proto_bits := 16
  SOCK_CLOEXEC := 524288
  SOCK_NONBLOCK := 2048
  SOCK_TYPE_MASK := 15
  _SF_NONBLOCK := 8
  _SF_INITD := 1
  EINVAL := 22
  ENOSYS := 38
  ENOTSUP := 138
  ENETDOWN := 100
  EAFNOSUPPORT := 97
  g_usrsock_sockif := { addr := 200, si_setup := some proxy }
  net_sockif := fun d t _ =>
    if d = 2 ∧ t = 1 then some { addr := 100, si_setup := some native } else none

/-- A socket structure with every field zero or `NULL`. -/
def sock0 : socket :=
  { s_domain := 0, s_type := 0, s_proto := 0, s_conn := none, s_sockif := none }

/-- A memory in which every connection has its flags clear. -/
def mem0 : Mem := fun _ => { s_flags := 0 }

end NetSocket

/-!
# The procfs view of the routing tables (`net/procfs/net_procfs_route.c`)

`route_open` and the lines formatted by `route_ipv4_entry` and
`route_ipv6_entry` through `route_sprintf`.  Text is a list of characters.
-/

namespace ProcfsRoute

/-! ## `route_open` -/

/-- The fields of `struct route_file_s` that `route_open` writes; the rest
of the container is zero (`kmm_zalloc`). -/
structure route_file_s where
  name : String
  node : Nat
  deriving DecidableEq, Repr

/-- The part of `struct file` that `route_open` writes: `f_priv`, a
pointer (`none` is `NULL`). -/
structure file where
  f_priv : Option Nat
  deriving DecidableEq, Repr

/-- What the translated file takes from its configuration, headers and
collaborators: the two address-family options, the `fcntl.h` and `errno.h`
constants, the size of the container and the allocator (`none` is a failed
allocation). -/
structure Config where
  CONFIG_NET_IPv4 : Bool
  CONFIG_NET_IPv6 : Bool
  O_RDONLY : Int
  O_WRONLY : Int
  EACCES : Nat
  ENOENT : Nat
  ENOMEM : Nat
  sizeof_route_file_s : Nat
  kmm_zalloc : Nat → Option Nat

/-- What a call of `route_open` leaves: the returned `int`, the file
structure, the sizes requested from `kmm_zalloc` and the container written,
with its address. -/
structure OpenOutcome where
  ret : Int
  filep : file
  allocs : List Nat
  procfile : Option (Nat × route_file_s)
  deriving DecidableEq, Repr

/-- The value `OK`. -/
def OK : Int := 0

/-- The string `g_route_ipv4_path` (line 206). -/
def g_route_ipv4_path : String := "net/route/ipv4"

/-- The string `g_route_ipv6_path` (line 209). -/
def g_route_ipv6_path : String := "net/route/ipv6"

/-- The string `g_route_ipv4_subdir` (line 215). -/
def g_route_ipv4_subdir : String := "ipv4"

/-- The string `g_route_ipv6_subdir` (line 218). -/
def g_route_ipv6_subdir : String := "ipv6"

/-- The enumerator `PROC_ROUTE_IPv4` of `enum route_node_e` (lines 81-90). -/
def PROC_ROUTE_IPv4 : Nat := 1

/-- The enumerator `PROC_ROUTE_IPv6`: it follows `PROC_ROUTE_IPv4` when
that one is present. -/
def PROC_ROUTE_IPv6 (cfg : Config) : Nat := if cfg.CONFIG_NET_IPv4 then 2 else 1

/-- Lines 456-475: the selection of the node by `relpath`; `none` is the
`-ENOENT` branch. -/
def route_node (cfg : Config) (relpath : String) : Option (String × Nat) :=
  if cfg.CONFIG_NET_IPv4 ∧ relpath = g_route_ipv4_path then
    some (g_route_ipv4_subdir, PROC_ROUTE_IPv4)
  else if cfg.CONFIG_NET_IPv6 ∧ relpath = g_route_ipv6_path then
    some (g_route_ipv6_subdir, PROC_ROUTE_IPv6 cfg)
  else none

/-- The function `route_open` (lines 433-496).  `mode` is not used by the
function. -/
def route_open (cfg : Config) (filep : file) (relpath : String) (oflags : Int)
    (_mode : Nat) : OpenOutcome :=
  if NetSocket.int_and oflags cfg.O_WRONLY ≠ 0 ∨ NetSocket.int_and oflags cfg.O_RDONLY = 0 then
    ⟨-(cfg.EACCES : Int), filep, [], none⟩
  else
    match route_node cfg relpath with
    | none => ⟨-(cfg.ENOENT : Int), filep, [], none⟩
    | some (name, node) =>
      match cfg.kmm_zalloc cfg.sizeof_route_file_s with
      | none => ⟨-(cfg.ENOMEM : Int), filep, [cfg.sizeof_route_file_s], none⟩
      | some procfile =>
        ⟨OK, { filep with f_priv := some procfile }, [cfg.sizeof_route_file_s],
          some (procfile, { name := name, node := node })⟩

/-- A configuration with both address families, `O_RDONLY = 1`,
`O_WRONLY = 2`, and an allocator that returns address 4096. -/
def sample_cfg : Config where
  CONFIG_NET_IPv4 := true
  CONFIG_NET_IPv6 := true
  O_RDONLY := 1
  O_WRONLY := 2
  EACCES := 13
  ENOENT := 2
  ENOMEM := 12
  sizeof_route_file_s := 80
  kmm_zalloc := fun _ => some 4096

/-! ## The formatted lines -/

/-- The size of the intermediate line buffer (line 60). -/
def STATUS_LINELEN : Nat := 58

/-- Modelled from the spec: the conversion `%-Ns` of `vsnprintf` (the C
library is not among the sources), as in the layout diagrams of lines
268-273: the string, then spaces up to the field width `N`; a longer string
is not cut. -/
def fmt_left (width : Nat) (str : List Char) : List Char :=
  str ++ List.replicate (width - str.length) ' '

/-- Decimal digits of `n`, most significant first, with `fuel` bounding the
number of digits. -/
def utoa_digits : Nat → Nat → List Char
  | 0, _ => []
  | fuel + 1, n =>
    if n < 10 then [Char.ofNat (48 + n)]
    else utoa_digits fuel (n / 10) ++ [Char.ofNat (48 + n % 10)]

/-- Modelled from the spec: the conversion `%Nu` of `vsnprintf` (the C
library is not among the sources), as the `nnnn.` of the layout diagrams:
the decimal digits of the value, preceded by spaces up to the field width
`N`; a longer number is not cut. -/
def fmt_unsigned (width : Nat) (n : Nat) : List Char :=
  List.replicate (width - (utoa_digits (n + 1) n).length) ' ' ++ utoa_digits (n + 1) n

/-- Modelled from the spec: the value returned by
`vsnprintf(line, linelen, fmt, ...)` (the C library is not among the
sources): the number of characters of the whole formatted text, the
terminating NUL not counted, whatever `linelen` is. -/
def vsnprintf_result (_linelen : Nat) (text : List Char) : Nat := text.length

/-- Line 292: `"%-4s  %-16s%-16s%-16s\n"` with `"SEQ"`, `"TARGET"`,
`"NETMASK"`, `"ROUTER"`. -/
def ipv4_header_line : List Char :=
  fmt_left 4 "SEQ".toList ++ "  ".toList ++ fmt_left 16 "TARGET".toList
    ++ fmt_left 16 "NETMASK".toList ++ fmt_left 16 "ROUTER".toList ++ "\n".toList

/-- Line 314: `"%4u. %-16s%-16s%-16s\n"` with the index and the three
address texts. -/
def ipv4_entry_line (index : Nat) (target netmask router : List Char) : List Char :=
  fmt_unsigned 4 index ++ ". ".toList ++ fmt_left 16 target ++ fmt_left 16 netmask
    ++ fmt_left 16 router ++ "\n".toList

/-- Line 349: `"%4u. TARGET  %s\n"` with the index and the address text. -/
def ipv6_target_line (index : Nat) (addr : List Char) : List Char :=
  fmt_unsigned 4 index ++ ". TARGET  ".toList ++ addr ++ "\n".toList

/-- Line 356: `"      NETMASK %s\n"` with the address text. -/
def ipv6_netmask_line (addr : List Char) : List Char :=
  "      NETMASK ".toList ++ addr ++ "\n".toList

/-- Line 363: `"      ROUTER  %s\n"` with the address text. -/
def ipv6_router_line (addr : List Char) : List Char :=
  "      ROUTER  ".toList ++ addr ++ "\n".toList

end ProcfsRoute

/-!
# Copying an argument list (`binfmt/binfmt_copyargv.c`)

The caller's `argv` is `none` for a `NULL` pointer and otherwise the list
of the strings before the `NULL` entry that ends it.  A string is the list
of the bytes found at its pointer; it ends at the first zero byte (or at
the end of the list, where the NUL stands).  `size_t` arithmetic is taken
modulo `2 ^ size_bits`.
-/

namespace Binfmt

/-- The limit `MAX_EXEC_ARGS` (line 48). -/
def MAX_EXEC_ARGS : Nat := 256

/-- The value `OK`. -/
def OK : Int := 0

/-- The bytes at a `char *`. -/
abbrev cstring := List Nat

/-- Modelled from the spec: the C library's `strlen` (not among the
sources): the number of bytes before the first zero. -/
def strlen (str : cstring) : Nat := (str.takeWhile (fun b => b ≠ 0)).length

/-- Modelled from the spec: the C library's `memcpy` (not among the
sources) in `memcpy(ptr, argv[i], strlen(argv[i]) + 1)`: the bytes stored
are the string with its terminating NUL. -/
def string_bytes (str : cstring) : List Nat := str.takeWhile (fun b => b ≠ 0) ++ [0]

/-- What the translated file takes from its headers and collaborators: two
errno values, the width of `size_t`, `sizeof(FAR char *)` and the allocator
(`none` is a failed allocation). -/
structure Config where
  E2BIG : Nat
  ENOMEM : Nat
  size_bits : Nat
  sizeof_ptr : Nat
  kmm_malloc : Nat → Option Nat

/-- The allocated buffer after the copy loop: its address, the size of the
pointer array at its start, the entries of that array (`argvbuf[0..nargs]`)
and the bytes stored after the array. -/
structure ArgBlock where
  base : Nat
  argvsize : Nat
  argvbuf : List (Option Nat)
  data : List Nat
  deriving DecidableEq, Repr

/-- The string read at the pointer `ptr` into the string area of the
block. -/
def ArgBlock.string_at (blk : ArgBlock) (ptr : Nat) : cstring :=
  (blk.data.drop (ptr - (blk.base + blk.argvsize))).takeWhile (fun b => b ≠ 0)

/-- What a returning call leaves: the returned `int`, the value of `*copy`,
the sizes requested from `kmm_malloc` and the buffer filled, if any. -/
structure CopyOutcome where
  ret : Int
  copy : Option Nat
  mallocs : List Nat
  block : Option ArgBlock
  deriving DecidableEq, Repr

/-- The loop of lines 84-104, entered at some entry of the list with the
current `nargs` and `argsize`: `none` when the check of line 99 fires,
otherwise the final `nargs` and `argsize`. -/
def count_args (cfg : Config) : List cstring → Nat → Nat → Option (Nat × Nat)
  | [], nargs, argsize => some (nargs, argsize)
  | str :: rest, nargs, argsize =>
    let argsize1 := (argsize + (strlen str + 1)) % 2 ^ cfg.size_bits
    let nargs1 := nargs + 1
    if nargs1 > MAX_EXEC_ARGS then none else count_args cfg rest nargs1 argsize1

/-- The loop of lines 124-130 and the store of line 134, entered at some
entry of the list with the current `ptr`: the entries of `argvbuf` from
there on, the `NULL` that ends them included, and the bytes stored from
`ptr` on. -/
def copy_args : List cstring → Nat → List (Option Nat) × List Nat
  | [], _ => ([none], [])
  | str :: rest, ptr =>
    let r := copy_args rest (ptr + (strlen str + 1))
    (some ptr :: r.1, string_bytes str ++ r.2)

/-- The function `binfmt_copyargv` (lines 71-140); `copy` is the value of
`*copy` before the call.  When the sizes computed in `size_t` have wrapped,
the stores of the copy loop do not fit the allocation; such a call has no
defined behaviour and the result is `none`. -/
def binfmt_copyargv (cfg : Config) (copy : Option Nat) (argv : Option (List cstring)) :
    Option CopyOutcome :=
  match argv with
  | none => some ⟨OK, none, [], none⟩
  | some args =>
    match count_args cfg args 0 0 with
    | none => some ⟨-(cfg.E2BIG : Int), copy, [], none⟩
    | some (nargs, argsize) =>
      if argsize > 0 then
        let argvsize := ((nargs + 1) * cfg.sizeof_ptr) % 2 ^ cfg.size_bits
        let size := (argvsize + argsize) % 2 ^ cfg.size_bits
        match cfg.kmm_malloc size with
        | none => some ⟨-(cfg.ENOMEM : Int), copy, [size], none⟩
        | some ptr =>
          let r := copy_args args (ptr + argvsize)
          if r.1.length * cfg.sizeof_ptr ≤ argvsize ∧ argvsize + r.2.length ≤ size then
            some ⟨OK, some ptr, [size], some ⟨ptr, argvsize, r.1, r.2⟩⟩
          else none
      else some ⟨OK, none, [], none⟩

/-- The sum of `strlen + 1` over a list of strings. -/
def args_size : List cstring → Nat
  | [] => 0
  | str :: rest => (strlen str + 1) + args_size rest

/-- A configuration of a 32-bit target: `size_t` of 32 bits, pointers of 4
bytes, and an allocator that returns address 4096 for every request of at
most 65536 bytes. -/
def sample_cfg : Config where
  E2BIG := 7
  ENOMEM := 12
  size_bits := 32
  sizeof_ptr := 4
  kmm_malloc := fun n => if n ≤ 65536 then some 4096 else none

/-- The argument list `{"ls", "-l", NULL}`. -/
def sample_argv : List cstring := [[108, 115], [45, 108]]

end Binfmt

namespace NetSocket

/-! ## Bitwise facts -/

theorem ldiff_eq_xor_and (m n : Nat) : Nat.ldiff m n = m ^^^ (m &&& n) := by
  apply Nat.eq_of_testBit_eq
  intro i
  rw [Nat.testBit_ldiff, Nat.testBit_xor, Nat.testBit_and]
  cases m.testBit i <;> cases n.testBit i <;> rfl

theorem int_and_eq_land (a b : Int) : int_and a b = Int.land a b := by
  cases a <;> cases b <;> simp [int_and, Int.land, ldiff_eq_xor_and]

theorem testBit_int_and (a b : Int) (i : Nat) :
    Int.testBit (int_and a b) i = (Int.testBit a i && Int.testBit b i) := by
  rw [int_and_eq_land, Int.testBit_land]

theorem int_testBit_zero (i : Nat) : Int.testBit 0 i = false := by
  show Int.testBit (Int.ofNat 0) i = false
  simp [Int.testBit]

/-- A `type` with a bit outside `type_bits` fails the test of line 87. -/
theorem guard_of_stray_bit (cfg : Config) (type : Int) (i : Nat)
    (h1 : Int.testBit type i = true) (h2 : Int.testBit (type_bits cfg) i = false) :
    int_and type (Int.lnot (type_bits cfg)) ≠ 0 := by
  intro h0
  have h := testBit_int_and type (Int.lnot (type_bits cfg)) i
  rw [h0, int_testBit_zero, Int.testBit_lnot, h1, h2] at h
  simp at h

theorem nat_testBit_self_add (m n : Nat) : m.testBit (m + n) = false := by
  apply Nat.testBit_lt_two_pow
  calc m < 2 ^ m := Nat.lt_two_pow m
    _ ≤ 2 ^ (m + n) := Nat.pow_le_pow_right (by decide) (Nat.le_add_right m n)

/-- Two integers with the same bits are equal. -/
theorem int_eq_of_testBit_eq (a b : Int) (h : ∀ i, Int.testBit a i = Int.testBit b i) :
    a = b := by
  cases a with
  | ofNat m =>
    cases b with
    | ofNat n =>
      congr 1
      exact Nat.eq_of_testBit_eq (fun i => by simpa [Int.testBit] using h i)
    | negSucc n =>
      exfalso
      have := h (m + n)
      simp only [Int.testBit] at this
      rw [nat_testBit_self_add, Nat.add_comm, nat_testBit_self_add] at this
      simp at this
  | negSucc m =>
    cases b with
    | ofNat n =>
      exfalso
      have := h (m + n)
      simp only [Int.testBit] at this
      rw [nat_testBit_self_add, Nat.add_comm, nat_testBit_self_add] at this
      simp at this
    | negSucc n =>
      congr 1
      exact Nat.eq_of_testBit_eq (fun i => by simpa [Int.testBit] using h i)

/-- The test of line 87 passes exactly when every bit of `type` is a bit of
`type_bits`. -/
theorem valid_type_iff_bits (cfg : Config) (type : Int) :
    valid_type cfg type
      ↔ ∀ i : Nat, Int.testBit type i = true → Int.testBit (type_bits cfg) i = true := by
  constructor
  · intro h i hi
    by_contra hb
    exact guard_of_stray_bit cfg type i hi (by simpa using hb) h
  · intro h
    apply int_eq_of_testBit_eq
    intro i
    rw [testBit_int_and, Int.testBit_lnot, int_testBit_zero]
    cases hi : Int.testBit type i
    · rfl
    · rw [h i hi]; rfl

/-- A bit of `type_bits` is a bit of `SOCK_CLOEXEC | SOCK_NONBLOCK` or of
`SOCK_TYPE_MASK`. -/
theorem testBit_type_bits (cfg : Config) (i : Nat) :
    Int.testBit (type_bits cfg) i
      = (Int.testBit (Int.lor cfg.SOCK_CLOEXEC cfg.SOCK_NONBLOCK) i
          || Int.testBit cfg.SOCK_TYPE_MASK i) := by
  unfold type_bits
  rw [Int.testBit_lor]

/-- A value that fits an unsigned field is stored unchanged. -/
theorem to_unsigned_of_range (bits : Nat) (x : Int) (h0 : 0 ≤ x) (h1 : x < 2 ^ bits) :
    ((to_unsigned bits x : Nat) : Int) = x := by
  unfold to_unsigned
  have h2 : x < ((2 ^ bits : Nat) : Int) := by
    push_cast
    exact h1
  rw [Int.emod_eq_of_lt h0 h2, Int.toNat_of_nonneg h0]

/-! ## Stepping through `psock_socket` -/

/-- Without usrsock a valid call is the native part on the initialised
socket. -/
theorem psock_socket_of_no_usrsock (cfg : Config) (domain type protocol : Int)
    (psock : socket) (mem : Mem)
    (hcfg : cfg.CONFIG_NET_USRSOCK = false) (hvalid : valid_type cfg type) :
    psock_socket cfg domain type protocol psock mem
      = psock_socket_native cfg domain type 0
          (psock_init cfg domain type protocol psock) mem [] := by
  unfold psock_socket
  rw [if_neg (not_not.mpr hvalid)]
  simp [hcfg]

/-- With usrsock a valid call runs the usrsock setup and returns at line
115 when the result is zero or not a fallback code. -/
theorem psock_socket_of_usrsock_final (cfg : Config) (domain type protocol : Int)
    (psock : socket) (mem : Mem) (setup : Setup) (r : Int) (ps1 : socket) (mem1 : Mem)
    (hcfg : cfg.CONFIG_NET_USRSOCK = true) (hvalid : valid_type cfg type)
    (hsetup : cfg.g_usrsock_sockif.si_setup = some setup)
    (hcall : setup (usrsock_arg cfg domain type protocol psock) mem = (r, ps1, mem1))
    (hr : r = 0 ∨ (r ≠ -(cfg.ENOSYS : Int) ∧ r ≠ -(cfg.ENOTSUP : Int)
        ∧ r ≠ -(cfg.ENETDOWN : Int))) :
    psock_socket cfg domain type protocol psock mem
      = some ⟨r, ps1, mem1,
          [Call.usrsock_setup (usrsock_arg cfg domain type protocol psock)]⟩ := by
  unfold psock_socket
  rw [if_neg (not_not.mpr hvalid)]
  unfold usrsock_arg at hcall
  simp only [hcfg, if_true, hsetup, hcall]
  rw [if_pos hr]
  rfl

/-- With usrsock a valid call whose usrsock setup answers a non-zero
fallback code goes on with the native part. -/
theorem psock_socket_of_usrsock_fallback (cfg : Config) (domain type protocol : Int)
    (psock : socket) (mem : Mem) (setup : Setup) (e : Int) (ps1 : socket) (mem1 : Mem)
    (hcfg : cfg.CONFIG_NET_USRSOCK = true) (hvalid : valid_type cfg type)
    (hsetup : cfg.g_usrsock_sockif.si_setup = some setup)
    (hcall : setup (usrsock_arg cfg domain type protocol psock) mem = (e, ps1, mem1))
    (he0 : e ≠ 0) (he : fallback_code cfg e) :
    psock_socket cfg domain type protocol psock mem
      = psock_socket_native cfg domain type e ps1 mem1
          [Call.usrsock_setup (usrsock_arg cfg domain type protocol psock)] := by
  have hn : ¬ (e = 0 ∨ (e ≠ -(cfg.ENOSYS : Int) ∧ e ≠ -(cfg.ENOTSUP : Int)
      ∧ e ≠ -(cfg.ENETDOWN : Int))) := by
    rintro (h | ⟨h1, h2, h3⟩)
    · exact he0 h
    · rcases he with h | h | h
      · exact h1 h
      · exact h2 h
      · exact h3 h
  unfold psock_socket
  rw [if_neg (not_not.mpr hvalid)]
  unfold usrsock_arg at hcall
  simp only [hcfg, if_true, hsetup, hcall]
  rw [if_neg hn]
  rfl

/-- A fallback code is non-zero when the errno values are positive. -/
theorem fallback_code_ne_zero (cfg : Config) (e : Int)
    (hpos : errno_positive cfg) (he : fallback_code cfg e) : e ≠ 0 := by
  obtain ⟨h1, h2, h3⟩ := hpos
  rcases he with h | h | h <;> omega

/-- A non-negative result is never a fallback code other than zero: line
113 returns on it. -/
theorem final_of_nonneg (cfg : Config) (r : Int) (hr : 0 ≤ r) :
    r = 0 ∨ (r ≠ -(cfg.ENOSYS : Int) ∧ r ≠ -(cfg.ENOTSUP : Int)
      ∧ r ≠ -(cfg.ENETDOWN : Int)) := by
  by_cases h : r = 0
  · exact Or.inl h
  · right
    refine ⟨?_, ?_, ?_⟩ <;> omega

/-- The native part when the registry has no descriptor. -/
theorem native_no_match (cfg : Config) (domain type ret : Int) (ps : socket) (mem : Mem)
    (calls : List Call)
    (hnone : cfg.net_sockif domain ps.s_type ps.s_proto = none) :
    psock_socket_native cfg domain type ret ps mem calls
      = some ⟨if cfg.CONFIG_NET_USRSOCK then ret else -(cfg.EAFNOSUPPORT : Int), ps, mem,
          calls ++ [Call.net_sockif domain ps.s_type ps.s_proto]⟩ := by
  unfold psock_socket_native
  simp only [hnone]
  split <;> rfl

/-- The native part when the selected setup fails. -/
theorem native_setup_failed (cfg : Config) (domain type ret : Int) (ps : socket) (mem : Mem)
    (calls : List Call) (sockif : sock_intf_s) (setup : Setup)
    (e : Int) (ps2 : socket) (mem2 : Mem)
    (hlookup : cfg.net_sockif domain ps.s_type ps.s_proto = some sockif)
    (hsetup : sockif.si_setup = some setup)
    (hcall : setup (native_arg sockif ps) mem = (e, ps2, mem2))
    (he : e < 0) :
    psock_socket_native cfg domain type ret ps mem calls
      = some ⟨e, ps2, mem2,
          calls ++ [Call.net_sockif domain ps.s_type ps.s_proto]
            ++ [Call.si_setup sockif.addr (native_arg sockif ps)]⟩ := by
  unfold psock_socket_native
  unfold native_arg at hcall
  simp only [hlookup, hsetup, hcall]
  rw [if_neg (not_le.mpr he)]
  rfl

/-- The native part when the selected setup succeeds and leaves a
connection. -/
theorem native_setup_done (cfg : Config) (domain type ret : Int) (ps : socket) (mem : Mem)
    (calls : List Call) (sockif : sock_intf_s) (setup : Setup)
    (r : Int) (ps2 : socket) (mem2 : Mem) (conn : Nat)
    (hlookup : cfg.net_sockif domain ps.s_type ps.s_proto = some sockif)
    (hsetup : sockif.si_setup = some setup)
    (hcall : setup (native_arg sockif ps) mem = (r, ps2, mem2))
    (hr : 0 ≤ r) (hconn : ps2.s_conn = some conn) :
    psock_socket_native cfg domain type ret ps mem calls
      = some ⟨r, ps2, apply_flags cfg type conn mem2,
          calls ++ [Call.net_sockif domain ps.s_type ps.s_proto]
            ++ [Call.si_setup sockif.addr (native_arg sockif ps)]⟩ := by
  unfold psock_socket_native
  unfold native_arg at hcall
  simp only [hlookup, hsetup, hcall]
  rw [if_pos hr]
  simp only [hconn]
  rfl

/-- From the state described by `at_lookup`, the call is the native part
run from that state, for some value of `ret`. -/
theorem psock_socket_of_at_lookup (cfg : Config) (domain type protocol : Int)
    (psock : socket) (mem : Mem) (ps1 : socket) (mem1 : Mem) (calls : List Call)
    (hvalid : valid_type cfg type)
    (hpath : at_lookup cfg domain type protocol psock mem ps1 mem1 calls) :
    ∃ ret, psock_socket cfg domain type protocol psock mem
      = psock_socket_native cfg domain type ret ps1 mem1 calls := by
  rcases hpath with ⟨hcfg, rfl, rfl, rfl⟩ | ⟨hcfg, setup, e, hsetup, hcall, he0, he, rfl⟩
  · exact ⟨0, psock_socket_of_no_usrsock cfg domain type protocol psock _ hcfg hvalid⟩
  · exact ⟨e, psock_socket_of_usrsock_fallback cfg domain type protocol psock mem setup e
      ps1 mem1 hcfg hvalid hsetup hcall he0 he⟩

/-- The calls of the native part: the lookup and then at most one setup,
that of the descriptor the lookup returned, on `native_arg`. -/
theorem native_calls (cfg : Config) (domain type ret : Int) (ps : socket) (mem : Mem)
    (calls : List Call) (out : Outcome)
    (h : psock_socket_native cfg domain type ret ps mem calls = some out) :
    out.calls = calls ++ [Call.net_sockif domain ps.s_type ps.s_proto]
    ∨ ∃ sockif : sock_intf_s, cfg.net_sockif domain ps.s_type ps.s_proto = some sockif
        ∧ out.calls = calls ++ [Call.net_sockif domain ps.s_type ps.s_proto]
            ++ [Call.si_setup sockif.addr (native_arg sockif ps)] := by
  unfold psock_socket_native at h
  cases hl : cfg.net_sockif domain ps.s_type ps.s_proto with
  | none =>
    left
    simp only [hl] at h
    split at h <;> (cases h; rfl)
  | some sockif =>
    right
    refine ⟨sockif, rfl, ?_⟩
    simp only [hl] at h
    cases hs : sockif.si_setup with
    | none => simp [hs] at h
    | some setup =>
      simp only [hs] at h
      split at h
      · split at h
        · cases h
        · cases h; rfl
      · cases h; rfl

/-- The returned value, the socket structure and the calls of the native
part do not depend on `type`, which only selects the flag stores. -/
theorem native_view_type (cfg : Config) (domain t1 t2 ret : Int) (ps : socket) (mem : Mem)
    (calls : List Call) :
    (psock_socket_native cfg domain t1 ret ps mem calls).map Outcome.view
      = (psock_socket_native cfg domain t2 ret ps mem calls).map Outcome.view := by
  unfold psock_socket_native
  cases hl : cfg.net_sockif domain ps.s_type ps.s_proto with
  | none => rfl
  | some sockif =>
    cases hs : sockif.si_setup with
    | none => simp only [hs]
    | some setup =>
      simp only [hs]
      by_cases hr : 0 ≤ (setup { ps with s_sockif := some sockif.addr } mem).1
      · rw [if_pos hr, if_pos hr]
        cases hc : (setup { ps with s_sockif := some sockif.addr } mem).2.1.s_conn with
        | none => rfl
        | some conn => rfl
      · rw [if_neg hr, if_neg hr]

/-- The calls of a returning valid call, by configuration.  Without
usrsock: the lookup on the masked triple, then at most one native setup.
With usrsock: its setup on `usrsock_arg` first; the lookup and a native
setup follow only when that setup returned a non-zero fallback code. -/
theorem psock_socket_calls (cfg : Config) (domain type protocol : Int)
    (psock : socket) (mem : Mem) (out : Outcome)
    (hvalid : valid_type cfg type)
    (h : psock_socket cfg domain type protocol psock mem = some out) :
    (cfg.CONFIG_NET_USRSOCK = false
      ∧ (out.calls = [Call.net_sockif domain (stored_type cfg type) (stored_proto cfg protocol)]
        ∨ ∃ sockif : sock_intf_s,
            cfg.net_sockif domain (stored_type cfg type) (stored_proto cfg protocol) = some sockif
            ∧ out.calls = [Call.net_sockif domain (stored_type cfg type) (stored_proto cfg protocol),
                Call.si_setup sockif.addr
                  (native_arg sockif (psock_init cfg domain type protocol psock))]))
    ∨ (cfg.CONFIG_NET_USRSOCK = true
      ∧ ∃ (setup : Setup) (e : Int) (ps1 : socket) (mem1 : Mem),
          cfg.g_usrsock_sockif.si_setup = some setup
          ∧ setup (usrsock_arg cfg domain type protocol psock) mem = (e, ps1, mem1)
          ∧ (out.calls = [Call.usrsock_setup (usrsock_arg cfg domain type protocol psock)]
            ∨ (e ≠ 0 ∧ fallback_code cfg e
              ∧ (out.calls = [Call.usrsock_setup (usrsock_arg cfg domain type protocol psock),
                    Call.net_sockif domain ps1.s_type ps1.s_proto]
                ∨ ∃ sockif : sock_intf_s,
                    cfg.net_sockif domain ps1.s_type ps1.s_proto = some sockif
                    ∧ out.calls
                      = [Call.usrsock_setup (usrsock_arg cfg domain type protocol psock),
                          Call.net_sockif domain ps1.s_type ps1.s_proto,
                          Call.si_setup sockif.addr (native_arg sockif ps1)])))) := by
  cases hcfg : cfg.CONFIG_NET_USRSOCK with
  | false =>
    left
    refine ⟨rfl, ?_⟩
    rw [psock_socket_of_no_usrsock cfg domain type protocol psock mem hcfg hvalid] at h
    rcases native_calls cfg domain type 0 _ mem [] out h with hc | ⟨sockif, hl, hc⟩
    · left
      rw [hc]
      rfl
    · right
      exact ⟨sockif, hl, by rw [hc]; rfl⟩
  | true =>
    right
    refine ⟨rfl, ?_⟩
    cases hs : cfg.g_usrsock_sockif.si_setup with
    | none =>
      exfalso
      unfold psock_socket at h
      rw [if_neg (not_not.mpr hvalid)] at h
      simp [hcfg, hs] at h
    | some setup =>
      refine ⟨setup, (setup (usrsock_arg cfg domain type protocol psock) mem).1,
        (setup (usrsock_arg cfg domain type protocol psock) mem).2.1,
        (setup (usrsock_arg cfg domain type protocol psock) mem).2.2, rfl, rfl, ?_⟩
      by_cases hfin : (setup (usrsock_arg cfg domain type protocol psock) mem).1 = 0
          ∨ ((setup (usrsock_arg cfg domain type protocol psock) mem).1 ≠ -(cfg.ENOSYS : Int)
            ∧ (setup (usrsock_arg cfg domain type protocol psock) mem).1
                ≠ -(cfg.ENOTSUP : Int)
            ∧ (setup (usrsock_arg cfg domain type protocol psock) mem).1
                ≠ -(cfg.ENETDOWN : Int))
      · left
        rw [psock_socket_of_usrsock_final cfg domain type protocol psock mem setup _ _ _
          hcfg hvalid hs rfl hfin] at h
        cases h
        rfl
      · right
        have he0 : (setup (usrsock_arg cfg domain type protocol psock) mem).1 ≠ 0 :=
          fun h0 => hfin (Or.inl h0)
        have he : fallback_code cfg (setup (usrsock_arg cfg domain type protocol psock) mem).1 := by
          by_contra hne
          apply hfin
          right
          exact ⟨fun h1 => hne (Or.inl h1), fun h1 => hne (Or.inr (Or.inl h1)),
            fun h1 => hne (Or.inr (Or.inr h1))⟩
        refine ⟨he0, he, ?_⟩
        rw [psock_socket_of_usrsock_fallback cfg domain type protocol psock mem setup _ _ _
          hcfg hvalid hs rfl he0 he] at h
        rcases native_calls cfg domain type _ _ _ _ out h with hc | ⟨sockif, hl, hc⟩
        · left
          rw [hc]
          rfl
        · right
          exact ⟨sockif, hl, by rw [hc]; rfl⟩

/-- The returned value, the socket structure and the calls of two valid
calls whose types have the same `type & SOCK_TYPE_MASK` are the same. -/
theorem psock_socket_view_of_masked_eq (cfg : Config) (domain t1 t2 protocol : Int)
    (psock : socket) (mem : Mem)
    (h1 : valid_type cfg t1) (h2 : valid_type cfg t2)
    (hm : int_and t2 cfg.SOCK_TYPE_MASK = int_and t1 cfg.SOCK_TYPE_MASK) :
    (psock_socket cfg domain t2 protocol psock mem).map Outcome.view
      = (psock_socket cfg domain t1 protocol psock mem).map Outcome.view := by
  have hinit : psock_init cfg domain t2 protocol psock
      = psock_init cfg domain t1 protocol psock := by
    unfold psock_init
    rw [hm]
  unfold psock_socket
  rw [if_neg (not_not.mpr h1), if_neg (not_not.mpr h2)]
  simp only [hinit]
  cases hcfg : cfg.CONFIG_NET_USRSOCK with
  | false =>
    simp only [Bool.false_eq_true, if_false]
    exact native_view_type cfg domain t2 t1 0 _ mem []
  | true =>
    simp only [if_true]
    cases hs : cfg.g_usrsock_sockif.si_setup with
    | none => rfl
    | some setup =>
      simp only []
      split
      · rfl
      · exact native_view_type cfg domain t2 t1 _ _ _ _

/-- Two types that agree outside `SOCK_CLOEXEC | SOCK_NONBLOCK`, one of
them valid, are both valid and have the same `type & SOCK_TYPE_MASK`, when
no bit of `SOCK_TYPE_MASK` is one of `SOCK_CLOEXEC | SOCK_NONBLOCK`. -/
theorem masked_eq_of_flag_bits (cfg : Config) (t1 t2 : Int)
    (h1 : valid_type cfg t1)
    (hdisj : int_and (Int.lor cfg.SOCK_CLOEXEC cfg.SOCK_NONBLOCK) cfg.SOCK_TYPE_MASK = 0)
    (hdiff : int_and t2 (Int.lnot (Int.lor cfg.SOCK_CLOEXEC cfg.SOCK_NONBLOCK))
      = int_and t1 (Int.lnot (Int.lor cfg.SOCK_CLOEXEC cfg.SOCK_NONBLOCK))) :
    valid_type cfg t2
      ∧ int_and t2 cfg.SOCK_TYPE_MASK = int_and t1 cfg.SOCK_TYPE_MASK := by
  have hA : ∀ i, (Int.testBit t2 i
        && !Int.testBit (Int.lor cfg.SOCK_CLOEXEC cfg.SOCK_NONBLOCK) i)
      = (Int.testBit t1 i
        && !Int.testBit (Int.lor cfg.SOCK_CLOEXEC cfg.SOCK_NONBLOCK) i) := by
    intro i
    have := congrArg (fun x => Int.testBit x i) hdiff
    simpa only [testBit_int_and, Int.testBit_lnot] using this
  have hB : ∀ i, (Int.testBit (Int.lor cfg.SOCK_CLOEXEC cfg.SOCK_NONBLOCK) i
      && Int.testBit cfg.SOCK_TYPE_MASK i) = false := by
    intro i
    have := congrArg (fun x => Int.testBit x i) hdisj
    simpa only [testBit_int_and, int_testBit_zero] using this
  have hC : ∀ i, (Int.testBit t1 i
      && !(Int.testBit (Int.lor cfg.SOCK_CLOEXEC cfg.SOCK_NONBLOCK) i
            || Int.testBit cfg.SOCK_TYPE_MASK i)) = false := by
    intro i
    have := congrArg (fun x => Int.testBit x i) h1
    simpa only [testBit_int_and, Int.testBit_lnot, int_testBit_zero, testBit_type_bits]
      using this
  constructor
  · apply int_eq_of_testBit_eq
    intro i
    rw [testBit_int_and, Int.testBit_lnot, int_testBit_zero, testBit_type_bits]
    have a := hA i
    have c := hC i
    revert a c
    cases Int.testBit t1 i <;> cases Int.testBit t2 i
      <;> cases Int.testBit (Int.lor cfg.SOCK_CLOEXEC cfg.SOCK_NONBLOCK) i
      <;> cases Int.testBit cfg.SOCK_TYPE_MASK i <;> simp
  · apply int_eq_of_testBit_eq
    intro i
    rw [testBit_int_and, testBit_int_and]
    have a := hA i
    have b := hB i
    revert a b
    cases Int.testBit t1 i <;> cases Int.testBit t2 i
      <;> cases Int.testBit (Int.lor cfg.SOCK_CLOEXEC cfg.SOCK_NONBLOCK) i
      <;> cases Int.testBit cfg.SOCK_TYPE_MASK i <;> simp

/-! ## The flag stores -/

theorem or_flags_same (mem : Mem) (conn bits : Nat) :
    (or_flags mem conn bits conn).s_flags = (mem conn).s_flags ||| bits := by
  simp [or_flags]

theorem or_flags_other (mem : Mem) (conn bits a : Nat) (h : a ≠ conn) :
    or_flags mem conn bits a = mem a := by
  simp [or_flags, Function.update_noteq h]

theorem apply_flags_nonblock (cfg : Config) (type : Int) (conn : Nat) (mem : Mem)
    (h : int_and type cfg.SOCK_NONBLOCK ≠ 0) :
    (apply_flags cfg type conn mem conn).s_flags
      = ((mem conn).s_flags ||| cfg._SF_NONBLOCK) ||| cfg._SF_INITD := by
  unfold apply_flags
  simp only [if_pos h]
  rw [or_flags_same, or_flags_same]

theorem apply_flags_blocking (cfg : Config) (type : Int) (conn : Nat) (mem : Mem)
    (h : int_and type cfg.SOCK_NONBLOCK = 0) :
    (apply_flags cfg type conn mem conn).s_flags = (mem conn).s_flags ||| cfg._SF_INITD := by
  unfold apply_flags
  simp only [if_neg (not_not.mpr h)]
  rw [or_flags_same]

theorem apply_flags_other (cfg : Config) (type : Int) (conn : Nat) (mem : Mem) (a : Nat)
    (h : a ≠ conn) : apply_flags cfg type conn mem a = mem a := by
  unfold apply_flags
  rw [or_flags_other _ _ _ _ h]
  split
  · exact or_flags_other _ _ _ _ h
  · rfl

/-- Once OR-ed in, the bits are set. -/
theorem lor_land_right (a b : Nat) : (a ||| b) &&& b = b := by
  apply Nat.eq_of_testBit_eq
  intro i
  rw [Nat.testBit_and, Nat.testBit_or]
  cases a.testBit i <;> cases b.testBit i <;> rfl

/-- Bits OR-ed in earlier stay set after a further OR. -/
theorem lor_lor_land_mid (a b c : Nat) : ((a ||| b) ||| c) &&& b = b := by
  apply Nat.eq_of_testBit_eq
  intro i
  rw [Nat.testBit_and, Nat.testBit_or, Nat.testBit_or]
  cases a.testBit i <;> cases b.testBit i <;> cases c.testBit i <;> rfl

/-! ## Properties of `psock_socket` -/

/-- C1: for every domain, protocol, registry, socket structure and memory,
a `type` with at least one bit set outside
`SOCK_CLOEXEC | SOCK_NONBLOCK | SOCK_TYPE_MASK` makes `psock_socket` return
`-EINVAL` with no call made (no usrsock setup, no registry lookup, no
native setup) and with the socket structure and the memory unchanged. -/
theorem psock_socket_stray_type_bit (cfg : Config) (domain type protocol : Int)
    (psock : socket) (mem : Mem)
    (h : ∃ i : Nat, Int.testBit type i = true ∧ Int.testBit (type_bits cfg) i = false) :
    psock_socket cfg domain type protocol psock mem
      = some ⟨-(cfg.EINVAL : Int), psock, mem, []⟩ := by
  obtain ⟨i, h1, h2⟩ := h
  have hg := guard_of_stray_bit cfg type i h1 h2
  unfold psock_socket
  rw [if_pos hg]

/-- C1 at a sample: `type = SOCK_STREAM | 0x10` under a configuration in
which both the proxy and a native backend would succeed. -/
theorem psock_socket_stray_type_bit_witness :
    psock_socket (sample_cfg true usrsock_setup_ok inet_setup) 2 17 0 sock0 mem0
      = some ⟨-22, sock0, mem0, []⟩ :=
  psock_socket_stray_type_bit (sample_cfg true usrsock_setup_ok inet_setup) 2 17 0 sock0 mem0
    ⟨4, by decide, by decide⟩

/-- C2: with usrsock configured and a valid `type`, when the usrsock setup
returns a non-negative result `r`, `psock_socket` returns `r`; the only call
it made is that setup (no registry lookup, no native setup); and, the setup
having left the caller's fields alone, `s_sockif` is the usrsock
descriptor. -/
theorem psock_socket_usrsock_success (cfg : Config) (domain type protocol : Int)
    (psock : socket) (mem : Mem) (setup : Setup) (r : Int) (ps1 : socket) (mem1 : Mem)
    (hcfg : cfg.CONFIG_NET_USRSOCK = true) (hvalid : valid_type cfg type)
    (hsetup : cfg.g_usrsock_sockif.si_setup = some setup)
    (hcall : setup (usrsock_arg cfg domain type protocol psock) mem = (r, ps1, mem1))
    (hr : 0 ≤ r)
    (hkeep : keeps_socket (usrsock_arg cfg domain type protocol psock) ps1) :
    psock_socket cfg domain type protocol psock mem
        = some ⟨r, ps1, mem1,
            [Call.usrsock_setup (usrsock_arg cfg domain type protocol psock)]⟩
      ∧ ps1.s_sockif = some cfg.g_usrsock_sockif.addr := by
  refine ⟨psock_socket_of_usrsock_final cfg domain type protocol psock mem setup r ps1 mem1
    hcfg hvalid hsetup hcall (final_of_nonneg cfg r hr), ?_⟩
  rw [hkeep]
  rfl

/-- C2 at a sample: `socket(PF_INET, SOCK_STREAM, 0)` with a usrsock setup
that succeeds; a native backend for the triple is registered and is not
consulted. -/
theorem psock_socket_usrsock_success_witness :
    psock_socket (sample_cfg true usrsock_setup_ok inet_setup) 2 1 0 sock0 mem0
        = some ⟨0,
            { s_domain := 2, s_type := 1, s_proto := 0, s_conn := some 7,
              s_sockif := some 200 },
            Function.update mem0 7 { s_flags := 0 },
            [Call.usrsock_setup
              (usrsock_arg (sample_cfg true usrsock_setup_ok inet_setup) 2 1 0 sock0)]⟩
      ∧ (some 200 : Option Nat) = some 200 :=
  psock_socket_usrsock_success (sample_cfg true usrsock_setup_ok inet_setup) 2 1 0 sock0 mem0
    usrsock_setup_ok 0
    { s_domain := 2, s_type := 1, s_proto := 0, s_conn := some 7, s_sockif := some 200 }
    (Function.update mem0 7 { s_flags := 0 })
    rfl (by decide) rfl rfl (by decide) (by decide)

/-- C3: with usrsock configured and a valid `type`, when the usrsock setup
returns a negative result `e` other than `-ENOSYS`, `-ENOTSUP`,
`-ENETDOWN`, `psock_socket` returns exactly `e` and the only call it made
is that setup, whatever the registry holds. -/
theorem psock_socket_usrsock_hard_error (cfg : Config) (domain type protocol : Int)
    (psock : socket) (mem : Mem) (setup : Setup) (e : Int) (ps1 : socket) (mem1 : Mem)
    (hcfg : cfg.CONFIG_NET_USRSOCK = true) (hvalid : valid_type cfg type)
    (hsetup : cfg.g_usrsock_sockif.si_setup = some setup)
    (hcall : setup (usrsock_arg cfg domain type protocol psock) mem = (e, ps1, mem1))
    (_hneg : e < 0) (hnot : ¬ fallback_code cfg e) :
    psock_socket cfg domain type protocol psock mem
      = some ⟨e, ps1, mem1,
          [Call.usrsock_setup (usrsock_arg cfg domain type protocol psock)]⟩ := by
  apply psock_socket_of_usrsock_final cfg domain type protocol psock mem setup e ps1 mem1
    hcfg hvalid hsetup hcall
  right
  refine ⟨fun h => hnot (Or.inl h), fun h => hnot (Or.inr (Or.inl h)),
    fun h => hnot (Or.inr (Or.inr h))⟩

/-- C3 at a sample: the usrsock setup fails with `-ENOMEM` (`-12`) for
`socket(PF_INET, SOCK_STREAM, 0)` while the registry holds a native backend
for the triple whose setup would succeed. -/
theorem psock_socket_usrsock_hard_error_witness :
    psock_socket (sample_cfg true (failing_setup (-12)) inet_setup) 2 1 0 sock0 mem0
      = some ⟨-12,
          usrsock_arg (sample_cfg true (failing_setup (-12)) inet_setup) 2 1 0 sock0,
          mem0,
          [Call.usrsock_setup
            (usrsock_arg (sample_cfg true (failing_setup (-12)) inet_setup) 2 1 0 sock0)]⟩ :=
  psock_socket_usrsock_hard_error (sample_cfg true (failing_setup (-12)) inet_setup) 2 1 0
    sock0 mem0 (failing_setup (-12)) (-12)
    (usrsock_arg (sample_cfg true (failing_setup (-12)) inet_setup) 2 1 0 sock0) mem0
    rfl (by decide) rfl rfl (by decide) (by decide)

/-- C7: for every creation that succeeds through a native backend (the
lookup at line 122 finds a descriptor, its setup returns `r ≥ 0` and leaves
the connection `conn`), `psock_socket` returns `r` and, `flags` being the
flag byte as the setup left it: when `type & SOCK_NONBLOCK` is set the
flags on return are `flags | _SF_NONBLOCK | _SF_INITD`, so both are set;
when it is not, they are `flags | _SF_INITD`, so `_SF_INITD` is set and no
bit outside `_SF_INITD` is added.  No other connection is written. -/
theorem psock_socket_native_flags (cfg : Config) (domain type protocol : Int)
    (psock : socket) (mem : Mem) (ps1 : socket) (mem1 : Mem) (calls : List Call)
    (sockif : sock_intf_s) (nsetup : Setup) (r : Int) (ps2 : socket) (mem2 : Mem)
    (conn : Nat)
    (hvalid : valid_type cfg type)
    (hpath : at_lookup cfg domain type protocol psock mem ps1 mem1 calls)
    (hlookup : cfg.net_sockif domain ps1.s_type ps1.s_proto = some sockif)
    (hnsetup : sockif.si_setup = some nsetup)
    (hncall : nsetup (native_arg sockif ps1) mem1 = (r, ps2, mem2))
    (hr : 0 ≤ r) (hconn : ps2.s_conn = some conn) :
    ∃ out : Outcome, psock_socket cfg domain type protocol psock mem = some out
      ∧ out.ret = r ∧ out.psock = ps2
      ∧ (int_and type cfg.SOCK_NONBLOCK ≠ 0 →
          (out.mem conn).s_flags
              = ((mem2 conn).s_flags ||| cfg._SF_NONBLOCK) ||| cfg._SF_INITD
            ∧ (out.mem conn).s_flags &&& cfg._SF_NONBLOCK = cfg._SF_NONBLOCK
            ∧ (out.mem conn).s_flags &&& cfg._SF_INITD = cfg._SF_INITD)
      ∧ (int_and type cfg.SOCK_NONBLOCK = 0 →
          (out.mem conn).s_flags = (mem2 conn).s_flags ||| cfg._SF_INITD
            ∧ (out.mem conn).s_flags &&& cfg._SF_INITD = cfg._SF_INITD
            ∧ ∀ i : Nat, cfg._SF_INITD.testBit i = false →
                (out.mem conn).s_flags.testBit i = (mem2 conn).s_flags.testBit i)
      ∧ (∀ a : Nat, a ≠ conn → out.mem a = mem2 a) := by
  obtain ⟨ret, hrun⟩ := psock_socket_of_at_lookup cfg domain type protocol psock mem ps1 mem1
    calls hvalid hpath
  rw [native_setup_done cfg domain type ret ps1 mem1 calls sockif nsetup r ps2 mem2 conn
    hlookup hnsetup hncall hr hconn] at hrun
  refine ⟨_, hrun, rfl, rfl, ?_, ?_, ?_⟩
  · intro hnb
    have hf := apply_flags_nonblock cfg type conn mem2 hnb
    refine ⟨hf, ?_, ?_⟩
    · show (apply_flags cfg type conn mem2 conn).s_flags &&& cfg._SF_NONBLOCK = _
      rw [hf, lor_lor_land_mid]
    · show (apply_flags cfg type conn mem2 conn).s_flags &&& cfg._SF_INITD = _
      rw [hf, lor_land_right]
  · intro hb
    have hf := apply_flags_blocking cfg type conn mem2 hb
    refine ⟨hf, ?_, ?_⟩
    · show (apply_flags cfg type conn mem2 conn).s_flags &&& cfg._SF_INITD = _
      rw [hf, lor_land_right]
    · intro i hi
      show (apply_flags cfg type conn mem2 conn).s_flags.testBit i = _
      rw [hf, Nat.testBit_or, hi, Bool.or_false]
  · intro a ha
    exact apply_flags_other cfg type conn mem2 a ha

/-- C7 at a sample: `socket(PF_INET, SOCK_STREAM | SOCK_NONBLOCK, 0)`
without usrsock and with a native setup that succeeds. -/
theorem psock_socket_native_flags_witness :
    ∃ out : Outcome,
      psock_socket (sample_cfg false usrsock_setup_ok inet_setup) 2 2049 0 sock0 mem0
        = some out
      ∧ out.ret = 0
      ∧ out.psock = { s_domain := 2, s_type := 1, s_proto := 0, s_conn := some 1,
                      s_sockif := some 100 }
      ∧ (int_and 2049 2048 ≠ 0 →
          (out.mem 1).s_flags
              = ((Function.update mem0 1 { s_flags := 0 } 1).s_flags ||| 8) ||| 1
            ∧ (out.mem 1).s_flags &&& 8 = 8
            ∧ (out.mem 1).s_flags &&& 1 = 1)
      ∧ (int_and 2049 2048 = 0 →
          (out.mem 1).s_flags = (Function.update mem0 1 { s_flags := 0 } 1).s_flags ||| 1
            ∧ (out.mem 1).s_flags &&& 1 = 1
            ∧ ∀ i : Nat, (1 : Nat).testBit i = false →
                (out.mem 1).s_flags.testBit i
                  = (Function.update mem0 1 { s_flags := 0 } 1).s_flags.testBit i)
      ∧ (∀ a : Nat, a ≠ 1 → out.mem a = Function.update mem0 1 { s_flags := 0 } a) :=
  psock_socket_native_flags (sample_cfg false usrsock_setup_ok inet_setup) 2 2049 0
    sock0 mem0 (psock_init (sample_cfg false usrsock_setup_ok inet_setup) 2 2049 0 sock0)
    mem0 [] { addr := 100, si_setup := some inet_setup } inet_setup 0
    { s_domain := 2, s_type := 1, s_proto := 0, s_conn := some 1, s_sockif := some 100 }
    (Function.update mem0 1 { s_flags := 0 }) 1
    (by decide) (Or.inl ⟨rfl, rfl, rfl, rfl⟩) rfl rfl rfl (by decide) rfl

/-- C9: whenever the native setup is invoked (the lookup of line 122 finds
a descriptor, with or without a usrsock attempt before it) and returns a
negative value `e`, `psock_socket` returns exactly `e`; that setup is the
last call it makes; and the memory, hence every connection's flags, is as
the setup left it. -/
theorem psock_socket_native_error (cfg : Config) (domain type protocol : Int)
    (psock : socket) (mem : Mem) (ps1 : socket) (mem1 : Mem) (calls : List Call)
    (sockif : sock_intf_s) (nsetup : Setup) (e : Int) (ps2 : socket) (mem2 : Mem)
    (hvalid : valid_type cfg type)
    (hpath : at_lookup cfg domain type protocol psock mem ps1 mem1 calls)
    (hlookup : cfg.net_sockif domain ps1.s_type ps1.s_proto = some sockif)
    (hnsetup : sockif.si_setup = some nsetup)
    (hncall : nsetup (native_arg sockif ps1) mem1 = (e, ps2, mem2))
    (he : e < 0) :
    psock_socket cfg domain type protocol psock mem
      = some ⟨e, ps2, mem2,
          calls ++ [Call.net_sockif domain ps1.s_type ps1.s_proto]
            ++ [Call.si_setup sockif.addr (native_arg sockif ps1)]⟩ := by
  obtain ⟨ret, hrun⟩ := psock_socket_of_at_lookup cfg domain type protocol psock mem ps1 mem1
    calls hvalid hpath
  rw [hrun]
  exact native_setup_failed cfg domain type ret ps1 mem1 calls sockif nsetup e ps2 mem2
    hlookup hnsetup hncall he

/-- C9 at a sample: the usrsock setup answers `-ENOSYS` (`-38`) and the
native setup then fails with `-ENOMEM` (`-12`), on a memory in which the
connection at address 1 has flags `0x40`. -/
theorem psock_socket_native_error_witness :
    psock_socket (sample_cfg true (failing_setup (-38)) (failing_setup (-12))) 2 1 0 sock0
        (Function.update mem0 1 { s_flags := 64 })
      = some ⟨-12,
          { s_domain := 2, s_type := 1, s_proto := 0, s_conn := none,
            s_sockif := some 100 },
          Function.update mem0 1 { s_flags := 64 },
          [Call.usrsock_setup
            (usrsock_arg (sample_cfg true (failing_setup (-38)) (failing_setup (-12)))
              2 1 0 sock0)]
            ++ [Call.net_sockif 2 1 0]
            ++ [Call.si_setup 100
                  { s_domain := 2, s_type := 1, s_proto := 0, s_conn := none,
                    s_sockif := some 100 }]⟩ :=
  psock_socket_native_error (sample_cfg true (failing_setup (-38)) (failing_setup (-12)))
    2 1 0 sock0 (Function.update mem0 1 { s_flags := 64 })
    (usrsock_arg (sample_cfg true (failing_setup (-38)) (failing_setup (-12))) 2 1 0 sock0)
    (Function.update mem0 1 { s_flags := 64 })
    [Call.usrsock_setup
      (usrsock_arg (sample_cfg true (failing_setup (-38)) (failing_setup (-12))) 2 1 0 sock0)]
    { addr := 100, si_setup := some (failing_setup (-12)) } (failing_setup (-12)) (-12)
    { s_domain := 2, s_type := 1, s_proto := 0, s_conn := none, s_sockif := some 100 }
    (Function.update mem0 1 { s_flags := 64 })
    (by decide)
    (Or.inr ⟨rfl, failing_setup (-38), -38, rfl, rfl, by decide, by decide, rfl⟩)
    rfl rfl rfl (by decide)

/-- C8 (the code at the failing input):
`socket(PF_INET, SOCK_STREAM | SOCK_NONBLOCK, 0)` with usrsock configured
and a usrsock setup that succeeds, leaving a connection at address 7 with
its flags clear.  `psock_socket` returns 0 at line 115 with the flags of
that connection still `0`: neither `_SF_INITD` nor `_SF_NONBLOCK` has been
set.  The same request served by the native backend (usrsock not
configured) ends with flags `_SF_NONBLOCK | _SF_INITD = 9`. -/
theorem psock_socket_usrsock_success_leaves_flags :
    (psock_socket (sample_cfg true usrsock_setup_ok inet_setup) 2 2049 0 sock0 mem0).map
        (fun out => (out.ret, out.psock.s_conn, out.psock.s_sockif, (out.mem 7).s_flags))
      = some (0, some 7, some 200, 0)
    ∧ (psock_socket (sample_cfg false usrsock_setup_ok inet_setup) 2 2049 0 sock0 mem0).map
        (fun out => (out.ret, out.psock.s_conn, out.psock.s_sockif, (out.mem 1).s_flags))
      = some (0, some 1, some 100, 9) := by
  constructor <;> rfl

/-- The native part returns when every registered descriptor has a setup
and a setup that reports success leaves a connection. -/
theorem native_returns_of_conn (cfg : Config) (domain type ret : Int) (ps : socket)
    (mem : Mem) (calls : List Call)
    (hptr : ∀ (d t p : Int) (s : sock_intf_s),
      cfg.net_sockif d t p = some s → s.si_setup ≠ none)
    (hconn : ∀ (d t p : Int) (s : sock_intf_s) (f : Setup) (ps1 : socket) (m : Mem),
      cfg.net_sockif d t p = some s → s.si_setup = some f →
      0 ≤ (f ps1 m).1 → (f ps1 m).2.1.s_conn ≠ none) :
    ∃ out : Outcome, psock_socket_native cfg domain type ret ps mem calls = some out := by
  cases hl : cfg.net_sockif domain ps.s_type ps.s_proto with
  | none => exact ⟨_, native_no_match cfg domain type ret ps mem calls hl⟩
  | some sockif =>
    cases hs : sockif.si_setup with
    | none => exact absurd hs (hptr _ _ _ sockif hl)
    | some f =>
      by_cases hr : 0 ≤ (f (native_arg sockif ps) mem).1
      · cases hc : (f (native_arg sockif ps) mem).2.1.s_conn with
        | none => exact absurd hc (hconn _ _ _ sockif f _ _ hl hs hr)
        | some conn =>
          exact ⟨_, native_setup_done cfg domain type ret ps mem calls sockif f _ _ _ conn
            hl hs rfl hr hc⟩
      · exact ⟨_, native_setup_failed cfg domain type ret ps mem calls sockif f _ _ _
          hl hs rfl (not_le.mp hr)⟩

/-- A valid call returns when no descriptor has a null setup and a native
setup that reports success leaves a connection. -/
theorem psock_socket_returns (cfg : Config) (domain type protocol : Int)
    (psock : socket) (mem : Mem)
    (hvalid : valid_type cfg type)
    (hproxy : cfg.CONFIG_NET_USRSOCK = true → cfg.g_usrsock_sockif.si_setup ≠ none)
    (hptr : ∀ (d t p : Int) (s : sock_intf_s),
      cfg.net_sockif d t p = some s → s.si_setup ≠ none)
    (hconn : ∀ (d t p : Int) (s : sock_intf_s) (f : Setup) (ps1 : socket) (m : Mem),
      cfg.net_sockif d t p = some s → s.si_setup = some f →
      0 ≤ (f ps1 m).1 → (f ps1 m).2.1.s_conn ≠ none) :
    ∃ out : Outcome, psock_socket cfg domain type protocol psock mem = some out := by
  by_cases hcfg : cfg.CONFIG_NET_USRSOCK = true
  · cases hs : cfg.g_usrsock_sockif.si_setup with
    | none => exact absurd hs (hproxy hcfg)
    | some f =>
      by_cases hfin : (f (usrsock_arg cfg domain type protocol psock) mem).1 = 0
          ∨ ((f (usrsock_arg cfg domain type protocol psock) mem).1 ≠ -(cfg.ENOSYS : Int)
            ∧ (f (usrsock_arg cfg domain type protocol psock) mem).1 ≠ -(cfg.ENOTSUP : Int)
            ∧ (f (usrsock_arg cfg domain type protocol psock) mem).1
                ≠ -(cfg.ENETDOWN : Int))
      · exact ⟨_, psock_socket_of_usrsock_final cfg domain type protocol psock mem f _ _ _
          hcfg hvalid hs rfl hfin⟩
      · have he0 : (f (usrsock_arg cfg domain type protocol psock) mem).1 ≠ 0 :=
          fun h0 => hfin (Or.inl h0)
        have he : fallback_code cfg (f (usrsock_arg cfg domain type protocol psock) mem).1 := by
          by_contra hne
          apply hfin
          right
          exact ⟨fun h1 => hne (Or.inl h1), fun h1 => hne (Or.inr (Or.inl h1)),
            fun h1 => hne (Or.inr (Or.inr h1))⟩
        rw [psock_socket_of_usrsock_fallback cfg domain type protocol psock mem f _ _ _
          hcfg hvalid hs rfl he0 he]
        exact native_returns_of_conn cfg domain type _ _ _ _ hptr hconn
  · have hcfg2 : cfg.CONFIG_NET_USRSOCK = false := by
      cases h : cfg.CONFIG_NET_USRSOCK with
      | false => rfl
      | true => exact absurd h hcfg
    rw [psock_socket_of_no_usrsock cfg domain type protocol psock mem hcfg2 hvalid]
    exact native_returns_of_conn cfg domain type _ _ _ _ hptr hconn

/-- In a sample configuration every registered setup is the native one. -/
theorem sample_cfg_native_setup (usrsock : Bool) (proxy native : Setup) (d t p : Int)
    (s : sock_intf_s) (f : Setup)
    (hl : (sample_cfg usrsock proxy native).net_sockif d t p = some s)
    (hs : s.si_setup = some f) : f = native := by
  unfold sample_cfg at hl
  simp only at hl
  split at hl
  · cases hl
    exact (Option.some.inj hs).symm
  · cases hl

/-- C10, as stated, fails where a value does not fit its field.  With the
8-bit `s_domain` and the 16-bit `s_proto`: `socket(258, SOCK_STREAM, 0)`
stores domain 2 in the endpoint while the lookup is made with 258, which is
not the stored triple; and `socket(PF_INET, SOCK_STREAM, 65542)` stores and
looks up protocol 6. -/
theorem psock_socket_stored_triple_example :
    psock_socket (sample_cfg false usrsock_setup_ok inet_setup) 258 1 0 sock0 mem0
        = some ⟨-97,
            { s_domain := 2, s_type := 1, s_proto := 0, s_conn := none, s_sockif := none },
            mem0, [Call.net_sockif 258 1 0]⟩
    ∧ (psock_socket (sample_cfg false usrsock_setup_ok inet_setup) 2 1 65542 sock0 mem0).map
          Outcome.view
        = some (0,
            { s_domain := 2, s_type := 1, s_proto := 6, s_conn := some 1,
              s_sockif := some 100 },
            [Call.net_sockif 2 1 6,
             Call.si_setup 100
              { s_domain := 2, s_type := 1, s_proto := 6, s_conn := none,
                s_sockif := some 100 }]) := by
  constructor <;> rfl

/-- C10, amended: for every call with a valid `type`, the endpoint holds,
before any backend is invoked, `domain`, `type & SOCK_TYPE_MASK` and
`protocol` converted to the widths of its fields, with a null connection;
these are the values themselves when they fit.  The first call of every
returning call carries them: the usrsock setup on `usrsock_arg` when
usrsock is configured, the registry lookup otherwise.  Every lookup is made
with `domain` as passed and the stored type and protocol, and with usrsock
it is made whenever the usrsock setup returned a non-zero fallback code
(the usrsock setup being taken to leave the caller's fields alone).  The
call returns when no descriptor has a null setup and a successful native
setup leaves a connection.  Consequently two calls whose types agree
outside the `SOCK_CLOEXEC` and `SOCK_NONBLOCK` bits (these not being bits
of `SOCK_TYPE_MASK`) return the same value, make the same calls and leave
the same socket structure: they select the same backend. -/
theorem psock_socket_masked_triple (cfg : Config) (domain type protocol : Int)
    (psock : socket) (mem : Mem)
    (hvalid : valid_type cfg type)
    (hkeep : ∀ setup : Setup, cfg.CONFIG_NET_USRSOCK = true →
      cfg.g_usrsock_sockif.si_setup = some setup →
      keeps_socket (usrsock_arg cfg domain type protocol psock)
        (setup (usrsock_arg cfg domain type protocol psock) mem).2.1) :
    (∀ out : Outcome, psock_socket cfg domain type protocol psock mem = some out →
        (∃ rest : List Call,
            (cfg.CONFIG_NET_USRSOCK = true
              ∧ out.calls = Call.usrsock_setup (usrsock_arg cfg domain type protocol psock)
                  :: rest)
            ∨ (cfg.CONFIG_NET_USRSOCK = false
              ∧ out.calls
                  = Call.net_sockif domain (stored_type cfg type) (stored_proto cfg protocol)
                    :: rest))
        ∧ (∀ ps : socket, (out.calls.filterMap Call.setup_arg).head? = some ps →
            ps.s_domain = to_unsigned cfg.s_domain_bits domain
              ∧ (ps.s_type : Int) = stored_type cfg type
              ∧ (ps.s_proto : Int) = stored_proto cfg protocol ∧ ps.s_conn = none)
        ∧ (∀ d t p : Int, Call.net_sockif d t p ∈ out.calls →
            d = domain ∧ t = stored_type cfg type ∧ p = stored_proto cfg protocol)
        ∧ (∀ setup : Setup, cfg.CONFIG_NET_USRSOCK = true →
            cfg.g_usrsock_sockif.si_setup = some setup →
            (setup (usrsock_arg cfg domain type protocol psock) mem).1 ≠ 0 →
            fallback_code cfg (setup (usrsock_arg cfg domain type protocol psock) mem).1 →
            Call.net_sockif domain (stored_type cfg type) (stored_proto cfg protocol)
              ∈ out.calls))
    ∧ ((0 ≤ domain → domain < 2 ^ cfg.s_domain_bits →
          ((to_unsigned cfg.s_domain_bits domain : Nat) : Int) = domain)
      ∧ (0 ≤ int_and type cfg.SOCK_TYPE_MASK →
          int_and type cfg.SOCK_TYPE_MASK < 2 ^ cfg.s_type_bits →
          stored_type cfg type = int_and type cfg.SOCK_TYPE_MASK)
      ∧ (0 ≤ protocol → protocol < 2 ^ cfg.s_proto_bits →
          stored_proto cfg protocol = protocol))
    ∧ ((cfg.CONFIG_NET_USRSOCK = true → cfg.g_usrsock_sockif.si_setup ≠ none) →
        (∀ (d t p : Int) (s : sock_intf_s),
          cfg.net_sockif d t p = some s → s.si_setup ≠ none) →
        (∀ (d t p : Int) (s : sock_intf_s) (f : Setup) (ps1 : socket) (m : Mem),
          cfg.net_sockif d t p = some s → s.si_setup = some f →
          0 ≤ (f ps1 m).1 → (f ps1 m).2.1.s_conn ≠ none) →
        ∃ out : Outcome, psock_socket cfg domain type protocol psock mem = some out)
    ∧ (∀ type2 : Int,
        int_and (Int.lor cfg.SOCK_CLOEXEC cfg.SOCK_NONBLOCK) cfg.SOCK_TYPE_MASK = 0 →
        int_and type2 (Int.lnot (Int.lor cfg.SOCK_CLOEXEC cfg.SOCK_NONBLOCK))
          = int_and type (Int.lnot (Int.lor cfg.SOCK_CLOEXEC cfg.SOCK_NONBLOCK)) →
        (psock_socket cfg domain type2 protocol psock mem).map Outcome.view
          = (psock_socket cfg domain type protocol psock mem).map Outcome.view) := by
  refine ⟨?_, ⟨to_unsigned_of_range _ _, to_unsigned_of_range _ _, to_unsigned_of_range _ _⟩,
    psock_socket_returns cfg domain type protocol psock mem hvalid, ?_⟩
  · intro out hout
    have hlast : ∀ setup : Setup, cfg.CONFIG_NET_USRSOCK = true →
        cfg.g_usrsock_sockif.si_setup = some setup →
        (setup (usrsock_arg cfg domain type protocol psock) mem).1 ≠ 0 →
        fallback_code cfg (setup (usrsock_arg cfg domain type protocol psock) mem).1 →
        Call.net_sockif domain (stored_type cfg type) (stored_proto cfg protocol)
          ∈ out.calls := by
      intro setup hcfg hs he0 he
      have hk := hkeep setup hcfg hs
      have ht : (((setup (usrsock_arg cfg domain type protocol psock) mem).2.1.s_type : Nat)
          : Int) = stored_type cfg type := by rw [hk]; rfl
      have hp : (((setup (usrsock_arg cfg domain type protocol psock) mem).2.1.s_proto : Nat)
          : Int) = stored_proto cfg protocol := by rw [hk]; rfl
      rw [psock_socket_of_usrsock_fallback cfg domain type protocol psock mem setup _ _ _
        hcfg hvalid hs rfl he0 he] at hout
      rcases native_calls cfg domain type _ _ _ _ out hout with hc | ⟨sockif, _, hc⟩
      · rw [hc, ht, hp]
        simp
      · rw [hc, ht, hp]
        simp
    rcases psock_socket_calls cfg domain type protocol psock mem out hvalid hout with
      ⟨hcfg, hc | ⟨sockif, _, hc⟩⟩ | ⟨hcfg, setup, e, ps1, mem1, hs, hcall, hc | ⟨_, _, hc | ⟨sockif, _, hc⟩⟩⟩
    · refine ⟨⟨[], Or.inr ⟨hcfg, hc⟩⟩, ?_, ?_, hlast⟩
      · intro ps hps
        rw [hc] at hps
        simp [Call.setup_arg] at hps
      · intro d t p hmem
        rw [hc] at hmem
        simp only [List.mem_singleton, Call.net_sockif.injEq] at hmem
        exact hmem
    · refine ⟨⟨_, Or.inr ⟨hcfg, hc⟩⟩, ?_, ?_, hlast⟩
      · intro ps hps
        rw [hc] at hps
        simp only [List.filterMap_cons, Call.setup_arg, List.filterMap_nil, List.head?_cons,
          Option.some.injEq] at hps
        subst hps
        exact ⟨rfl, rfl, rfl, rfl⟩
      · intro d t p hmem
        rw [hc] at hmem
        simp only [List.mem_cons, Call.net_sockif.injEq, List.mem_singleton,
          reduceCtorEq, or_false, List.not_mem_nil] at hmem
        exact hmem
    · refine ⟨⟨[], Or.inl ⟨hcfg, hc⟩⟩, ?_, ?_, hlast⟩
      · intro ps hps
        rw [hc] at hps
        simp only [List.filterMap_cons, Call.setup_arg, List.filterMap_nil, List.head?_cons,
          Option.some.injEq] at hps
        subst hps
        exact ⟨rfl, rfl, rfl, rfl⟩
      · intro d t p hmem
        rw [hc] at hmem
        simp at hmem
    · have hk : keeps_socket (usrsock_arg cfg domain type protocol psock) ps1 := by
        have hk0 := hkeep setup hcfg hs
        rw [hcall] at hk0
        exact hk0
      have ht : (ps1.s_type : Int) = stored_type cfg type := by rw [hk]; rfl
      have hp : (ps1.s_proto : Int) = stored_proto cfg protocol := by rw [hk]; rfl
      refine ⟨⟨_, Or.inl ⟨hcfg, hc⟩⟩, ?_, ?_, hlast⟩
      · intro ps hps
        rw [hc] at hps
        simp only [List.filterMap_cons, Call.setup_arg, List.filterMap_nil, List.head?_cons,
          Option.some.injEq] at hps
        subst hps
        exact ⟨rfl, rfl, rfl, rfl⟩
      · intro d t p hmem
        rw [hc] at hmem
        simp only [List.mem_cons, Call.net_sockif.injEq, List.mem_singleton,
          reduceCtorEq, false_or, List.not_mem_nil, or_false] at hmem
        obtain ⟨hd, h2, h3⟩ := hmem
        exact ⟨hd, h2.trans ht, h3.trans hp⟩
    · have hk : keeps_socket (usrsock_arg cfg domain type protocol psock) ps1 := by
        have hk0 := hkeep setup hcfg hs
        rw [hcall] at hk0
        exact hk0
      have ht : (ps1.s_type : Int) = stored_type cfg type := by rw [hk]; rfl
      have hp : (ps1.s_proto : Int) = stored_proto cfg protocol := by rw [hk]; rfl
      refine ⟨⟨_, Or.inl ⟨hcfg, hc⟩⟩, ?_, ?_, hlast⟩
      · intro ps hps
        rw [hc] at hps
        simp only [List.filterMap_cons, Call.setup_arg, List.filterMap_nil, List.head?_cons,
          Option.some.injEq] at hps
        subst hps
        exact ⟨rfl, rfl, rfl, rfl⟩
      · intro d t p hmem
        rw [hc] at hmem
        simp only [List.mem_cons, Call.net_sockif.injEq, List.mem_singleton,
          reduceCtorEq, false_or, List.not_mem_nil, or_false] at hmem
        obtain ⟨hd, h2, h3⟩ := hmem
        exact ⟨hd, h2.trans ht, h3.trans hp⟩
  · intro type2 hdisj hdiff
    obtain ⟨hv2, hm⟩ := masked_eq_of_flag_bits cfg type type2 hvalid hdisj hdiff
    exact psock_socket_view_of_masked_eq cfg domain type type2 protocol psock mem hvalid hv2 hm

/-- C10, amended, at a sample: `socket(PF_INET, SOCK_STREAM, 0)` with a
usrsock setup that answers `-ENOSYS`: the first call is the usrsock setup
on the initialised socket, the lookup `(2, 1, 0)` is made, the call
returns, and `SOCK_STREAM | SOCK_NONBLOCK | SOCK_CLOEXEC` gives the same
view. -/
theorem psock_socket_masked_triple_witness :
    (∃ rest : List Call,
        ((sample_cfg true (failing_setup (-38)) inet_setup).CONFIG_NET_USRSOCK = true
          ∧ [Call.usrsock_setup
              (usrsock_arg (sample_cfg true (failing_setup (-38)) inet_setup) 2 1 0 sock0),
             Call.net_sockif 2 1 0,
             Call.si_setup 100
              { s_domain := 2, s_type := 1, s_proto := 0, s_conn := none,
                s_sockif := some 100 }]
            = Call.usrsock_setup
                (usrsock_arg (sample_cfg true (failing_setup (-38)) inet_setup) 2 1 0 sock0)
              :: rest)
        ∨ ((sample_cfg true (failing_setup (-38)) inet_setup).CONFIG_NET_USRSOCK = false
          ∧ [Call.usrsock_setup
              (usrsock_arg (sample_cfg true (failing_setup (-38)) inet_setup) 2 1 0 sock0),
             Call.net_sockif 2 1 0,
             Call.si_setup 100
              { s_domain := 2, s_type := 1, s_proto := 0, s_conn := none,
                s_sockif := some 100 }]
            = Call.net_sockif 2 1 0 :: rest))
    ∧ Call.net_sockif 2 1 0
        ∈ [Call.usrsock_setup
            (usrsock_arg (sample_cfg true (failing_setup (-38)) inet_setup) 2 1 0 sock0),
           Call.net_sockif 2 1 0,
           Call.si_setup 100
            { s_domain := 2, s_type := 1, s_proto := 0, s_conn := none,
              s_sockif := some 100 }]
    ∧ (∃ out : Outcome,
        psock_socket (sample_cfg true (failing_setup (-38)) inet_setup) 2 1 0 sock0 mem0
          = some out)
    ∧ (psock_socket (sample_cfg true (failing_setup (-38)) inet_setup) 2 526337 0
          sock0 mem0).map Outcome.view
        = (psock_socket (sample_cfg true (failing_setup (-38)) inet_setup) 2 1 0
          sock0 mem0).map Outcome.view :=
  have h := psock_socket_masked_triple (sample_cfg true (failing_setup (-38)) inet_setup)
    2 1 0 sock0 mem0 (by decide)
    (fun setup _ hs => by
      have h := Option.some.inj hs
      subst h
      decide)
  have hout := h.1
    ⟨0, { s_domain := 2, s_type := 1, s_proto := 0, s_conn := some 1,
          s_sockif := some 100 },
      apply_flags (sample_cfg true (failing_setup (-38)) inet_setup) 1 1
        (Function.update mem0 1 { s_flags := 0 }),
      [Call.usrsock_setup
        (usrsock_arg (sample_cfg true (failing_setup (-38)) inet_setup) 2 1 0 sock0),
       Call.net_sockif 2 1 0,
       Call.si_setup 100
        { s_domain := 2, s_type := 1, s_proto := 0, s_conn := none,
          s_sockif := some 100 }]⟩
    rfl
  ⟨hout.1,
    hout.2.2.2 (failing_setup (-38)) rfl rfl (by decide) (by decide),
    h.2.2.1 (fun _ => by simp [sample_cfg])
      (fun d t p s hl => by
        unfold sample_cfg at hl
        simp only at hl
        split at hl
        · cases hl
          simp
        · cases hl)
      (fun d t p s f ps1 m hl hs _ => by
        rw [sample_cfg_native_setup true (failing_setup (-38)) inet_setup d t p s f hl hs]
        simp [inet_setup]),
    h.2.2.2 526337 (by decide) (by decide)⟩

/-- The endpoint invariant for the native part: entered with a null
connection (and, under usrsock, a negative `ret`), it returns with
`s_sockif` and `s_conn` both non-null exactly when it returns a
non-negative value. -/
theorem native_initialised_iff (cfg : Config) (domain type ret : Int) (ps : socket)
    (mem : Mem) (calls : List Call) (out : Outcome)
    (hps : ps.s_conn = none)
    (hret : cfg.CONFIG_NET_USRSOCK = true → ret < 0)
    (herr : 0 < cfg.EAFNOSUPPORT)
    (hnative : ∀ (d t p : Int) (s : sock_intf_s) (f : Setup),
      cfg.net_sockif d t p = some s → s.si_setup = some f → setup_contract f)
    (h : psock_socket_native cfg domain type ret ps mem calls = some out) :
    (out.psock.s_sockif ≠ none ∧ out.psock.s_conn ≠ none) ↔ 0 ≤ out.ret := by
  unfold psock_socket_native at h
  cases hl : cfg.net_sockif domain ps.s_type ps.s_proto with
  | none =>
    simp only [hl] at h
    cases hcfg : cfg.CONFIG_NET_USRSOCK with
    | false =>
      simp only [hcfg, Bool.false_eq_true, if_false, Option.some.injEq] at h
      subst h
      simp only [hps, ne_eq, not_true_eq_false, and_false, false_iff, not_le]
      omega
    | true =>
      simp only [hcfg, if_true, Option.some.injEq] at h
      subst h
      have := hret hcfg
      simp only [hps, ne_eq, not_true_eq_false, and_false, false_iff, not_le]
      exact this
  | some sockif =>
    simp only [hl] at h
    cases hs : sockif.si_setup with
    | none => simp [hs] at h
    | some f =>
      simp only [hs] at h
      obtain ⟨hconn, hsock⟩ := hnative _ _ _ sockif f hl hs
        { ps with s_sockif := some sockif.addr } mem hps
      by_cases hr : 0 ≤ (f { ps with s_sockif := some sockif.addr } mem).1
      · rw [if_pos hr] at h
        cases hc : (f { ps with s_sockif := some sockif.addr } mem).2.1.s_conn with
        | none => simp [hc] at h
        | some conn =>
          simp only [hc, Option.some.injEq] at h
          subst h
          simp only [hsock, hc, ne_eq, reduceCtorEq, not_false_eq_true, and_self, true_iff]
          exact hr
      · rw [if_neg hr, Option.some.injEq] at h
        subst h
        have hnone : ¬ (f { ps with s_sockif := some sockif.addr } mem).2.1.s_conn ≠ none :=
          fun hne => hr (hconn.mp hne)
        constructor
        · intro hboth
          exact absurd hboth.2 hnone
        · intro hge
          exact absurd hge hr

/-- The native part returns when every registered descriptor has a setup
and every setup keeps `setup_contract`. -/
theorem native_returns (cfg : Config) (domain type ret : Int) (ps : socket)
    (mem : Mem) (calls : List Call)
    (hps : ps.s_conn = none)
    (hnative : ∀ (d t p : Int) (s : sock_intf_s) (f : Setup),
      cfg.net_sockif d t p = some s → s.si_setup = some f → setup_contract f)
    (hptr : ∀ (d t p : Int) (s : sock_intf_s),
      cfg.net_sockif d t p = some s → s.si_setup ≠ none) :
    ∃ out : Outcome, psock_socket_native cfg domain type ret ps mem calls = some out := by
  cases hl : cfg.net_sockif domain ps.s_type ps.s_proto with
  | none => exact ⟨_, native_no_match cfg domain type ret ps mem calls hl⟩
  | some sockif =>
    cases hs : sockif.si_setup with
    | none => exact absurd hs (hptr _ _ _ sockif hl)
    | some f =>
      obtain ⟨hconn, _⟩ := hnative _ _ _ sockif f hl hs (native_arg sockif ps) mem hps
      by_cases hr : 0 ≤ (f (native_arg sockif ps) mem).1
      · cases hc : (f (native_arg sockif ps) mem).2.1.s_conn with
        | none => exact absurd hc (hconn.mpr hr)
        | some conn =>
          exact ⟨_, native_setup_done cfg domain type ret ps mem calls sockif f _ _ _ conn
            hl hs rfl hr hc⟩
      · exact ⟨_, native_setup_failed cfg domain type ret ps mem calls sockif f _ _ _
          hl hs rfl (not_le.mp hr)⟩

/-- C11: on a socket structure whose `s_sockif` and `s_conn` are
initially null, with setups that leave the connection non-null exactly when
they return a non-negative value (and do not write `s_sockif`), every
returning call of `psock_socket` ends with `s_sockif` and `s_conn` both
non-null if and only if it returned a non-negative value; and the call does
return when no descriptor has a null `si_setup`.  The errno values `EINVAL`
and `EAFNOSUPPORT` are positive. -/
theorem psock_socket_initialised_iff (cfg : Config) (domain type protocol : Int)
    (psock : socket) (mem : Mem)
    (hnull : psock.s_sockif = none ∧ psock.s_conn = none)
    (herr : 0 < cfg.EINVAL ∧ 0 < cfg.EAFNOSUPPORT)
    (hproxy : ∀ f : Setup, cfg.CONFIG_NET_USRSOCK = true →
      cfg.g_usrsock_sockif.si_setup = some f → setup_contract f)
    (hnative : ∀ (d t p : Int) (s : sock_intf_s) (f : Setup),
      cfg.net_sockif d t p = some s → s.si_setup = some f → setup_contract f) :
    (∀ out : Outcome, psock_socket cfg domain type protocol psock mem = some out →
        ((out.psock.s_sockif ≠ none ∧ out.psock.s_conn ≠ none) ↔ 0 ≤ out.ret))
    ∧ ((cfg.CONFIG_NET_USRSOCK = true → cfg.g_usrsock_sockif.si_setup ≠ none)
        → (∀ (d t p : Int) (s : sock_intf_s),
            cfg.net_sockif d t p = some s → s.si_setup ≠ none)
        → ∃ out : Outcome, psock_socket cfg domain type protocol psock mem = some out) := by
  by_cases hvalid : valid_type cfg type
  · cases hcfg : cfg.CONFIG_NET_USRSOCK with
    | false =>
      rw [psock_socket_of_no_usrsock cfg domain type protocol psock mem hcfg hvalid]
      constructor
      · intro out hout
        exact native_initialised_iff cfg domain type 0 _ mem [] out rfl
          (fun h => by rw [hcfg] at h; cases h) herr.2 hnative hout
      · intro _ hptr
        exact native_returns cfg domain type 0 _ mem [] rfl hnative hptr
    | true =>
      cases hs : cfg.g_usrsock_sockif.si_setup with
      | none =>
        constructor
        · intro out hout
          exfalso
          unfold psock_socket at hout
          rw [if_neg (not_not.mpr hvalid)] at hout
          simp [hcfg, hs] at hout
        · intro hp _
          exact absurd rfl (hp rfl)
      | some f =>
        obtain ⟨hconn, hsock⟩ := hproxy f hcfg hs
          (usrsock_arg cfg domain type protocol psock) mem rfl
        by_cases hfin : (f (usrsock_arg cfg domain type protocol psock) mem).1 = 0
            ∨ ((f (usrsock_arg cfg domain type protocol psock) mem).1 ≠ -(cfg.ENOSYS : Int)
              ∧ (f (usrsock_arg cfg domain type protocol psock) mem).1 ≠ -(cfg.ENOTSUP : Int)
              ∧ (f (usrsock_arg cfg domain type protocol psock) mem).1
                  ≠ -(cfg.ENETDOWN : Int))
        · rw [psock_socket_of_usrsock_final cfg domain type protocol psock mem f _ _ _
            hcfg hvalid hs rfl hfin]
          constructor
          · intro out hout
            cases hout
            show ((f (usrsock_arg cfg domain type protocol psock) mem).2.1.s_sockif ≠ none
                ∧ (f (usrsock_arg cfg domain type protocol psock) mem).2.1.s_conn ≠ none)
              ↔ 0 ≤ (f (usrsock_arg cfg domain type protocol psock) mem).1
            rw [hsock, ← hconn]
            constructor
            · exact fun hb => hb.2
            · exact fun hc => ⟨by simp [usrsock_arg], hc⟩
          · intro _ _
            exact ⟨_, rfl⟩
        · have he0 : (f (usrsock_arg cfg domain type protocol psock) mem).1 ≠ 0 :=
            fun h0 => hfin (Or.inl h0)
          have he : fallback_code cfg (f (usrsock_arg cfg domain type protocol psock) mem).1 := by
            by_contra hne
            apply hfin
            right
            exact ⟨fun h1 => hne (Or.inl h1), fun h1 => hne (Or.inr (Or.inl h1)),
              fun h1 => hne (Or.inr (Or.inr h1))⟩
          have hneg : (f (usrsock_arg cfg domain type protocol psock) mem).1 < 0 := by
            rcases he with h | h | h <;> omega
          have hcnone : (f (usrsock_arg cfg domain type protocol psock) mem).2.1.s_conn
              = none := by
            by_contra hne
            have := hconn.mp hne
            omega
          rw [psock_socket_of_usrsock_fallback cfg domain type protocol psock mem f _ _ _
            hcfg hvalid hs rfl he0 he]
          constructor
          · intro out hout
            exact native_initialised_iff cfg domain type _ _ _ _ out hcnone
              (fun _ => hneg) herr.2 hnative hout
          · intro _ hptr
            exact native_returns cfg domain type _ _ _ _ hcnone hnative hptr
  · have hg : int_and type (Int.lnot (type_bits cfg)) ≠ 0 := hvalid
    unfold psock_socket
    rw [if_pos hg]
    constructor
    · intro out hout
      cases hout
      show (psock.s_sockif ≠ none ∧ psock.s_conn ≠ none) ↔ 0 ≤ -(cfg.EINVAL : Int)
      rw [hnull.1]
      constructor
      · intro hb
        exact absurd rfl hb.1
      · intro hge
        have := herr.1
        omega
    · intro _ _
      exact ⟨_, rfl⟩

/-- A setup that fails with a negative result and touches nothing keeps
`setup_contract`. -/
theorem failing_setup_contract (e : Int) (he : e < 0) : setup_contract (failing_setup e) := by
  intro ps mem hps
  constructor
  · show ps.s_conn ≠ none ↔ 0 ≤ e
    rw [hps]
    constructor
    · intro h
      exact absurd rfl h
    · intro h
      omega
  · rfl

/-- The sample native setup keeps `setup_contract`. -/
theorem inet_setup_contract : setup_contract inet_setup := by
  intro ps mem _
  constructor
  · show (some 1 : Option Nat) ≠ none ↔ (0 : Int) ≤ 0
    simp
  · rfl

/-- C11 at a sample: `socket(PF_INET, SOCK_STREAM, 0)` on a zeroed socket
structure, the usrsock setup answering `-ENOSYS` and the native setup
succeeding. -/
theorem psock_socket_initialised_iff_witness :
    (((some 100 : Option Nat) ≠ none ∧ (some 1 : Option Nat) ≠ none) ↔ (0 : Int) ≤ 0)
    ∧ ∃ out : Outcome,
        psock_socket (sample_cfg true (failing_setup (-38)) inet_setup) 2 1 0 sock0 mem0
          = some out :=
  have h := psock_socket_initialised_iff (sample_cfg true (failing_setup (-38)) inet_setup)
    2 1 0 sock0 mem0 ⟨rfl, rfl⟩ (by decide)
    (fun f _ hs => by
      have hf : failing_setup (-38) = f := Option.some.inj hs
      rw [← hf]
      exact failing_setup_contract (-38) (by decide))
    (fun d t p s f hl hs => by
      rw [sample_cfg_native_setup true (failing_setup (-38)) inet_setup d t p s f hl hs]
      exact inet_setup_contract)
  ⟨h.1
      ⟨0, { s_domain := 2, s_type := 1, s_proto := 0, s_conn := some 1,
            s_sockif := some 100 },
        apply_flags (sample_cfg true (failing_setup (-38)) inet_setup) 1 1
          (Function.update mem0 1 { s_flags := 0 }),
        [Call.usrsock_setup
          (usrsock_arg (sample_cfg true (failing_setup (-38)) inet_setup) 2 1 0 sock0),
         Call.net_sockif 2 1 0,
         Call.si_setup 100
          { s_domain := 2, s_type := 1, s_proto := 0, s_conn := none,
            s_sockif := some 100 }]⟩
      rfl,
    h.2 (fun _ => by simp [sample_cfg])
      (fun d t p s hl => by
        unfold sample_cfg at hl
        simp only at hl
        split at hl
        · cases hl
          simp
        · cases hl)⟩

/-- C18: in every returning call of `psock_socket` the usrsock setup is
called at most once and a native setup at most once; and with usrsock
configured, if the registry lookup or a native setup is called at all, then
the first call was the usrsock setup, on `usrsock_arg`, its result was one
of `-ENOSYS`, `-ENOTSUP`, `-ENETDOWN`, and it is not called again. -/
theorem psock_socket_no_retry (cfg : Config) (domain type protocol : Int)
    (psock : socket) (mem : Mem) (out : Outcome)
    (h : psock_socket cfg domain type protocol psock mem = some out) :
    (out.calls.filter Call.is_usrsock_setup).length ≤ 1
    ∧ (out.calls.filter Call.is_native_setup).length ≤ 1
    ∧ (cfg.CONFIG_NET_USRSOCK = true →
        (∃ c ∈ out.calls, c.is_lookup = true ∨ c.is_native_setup = true) →
        ∃ (setup : Setup) (rest : List Call),
          cfg.g_usrsock_sockif.si_setup = some setup
          ∧ out.calls = Call.usrsock_setup (usrsock_arg cfg domain type protocol psock) :: rest
          ∧ fallback_code cfg (setup (usrsock_arg cfg domain type protocol psock) mem).1
          ∧ ∀ c ∈ rest, c.is_usrsock_setup = false) := by
  by_cases hvalid : valid_type cfg type
  · rcases psock_socket_calls cfg domain type protocol psock mem out hvalid h with
      ⟨hcfg, hc | ⟨sockif, _, hc⟩⟩
      | ⟨hcfg, setup, e, ps1, mem1, hs, hcall, hc | ⟨_, he, hc | ⟨sockif, _, hc⟩⟩⟩
    · rw [hc]
      refine ⟨by simp [Call.is_usrsock_setup], by simp [Call.is_native_setup], ?_⟩
      intro hu
      rw [hcfg] at hu
      cases hu
    · rw [hc]
      refine ⟨by simp [Call.is_usrsock_setup], by simp [Call.is_native_setup], ?_⟩
      intro hu
      rw [hcfg] at hu
      cases hu
    · rw [hc]
      refine ⟨by simp [Call.is_usrsock_setup], by simp [Call.is_native_setup], ?_⟩
      intro _ hex
      simp [Call.is_lookup, Call.is_native_setup] at hex
    · rw [hc]
      refine ⟨by simp [Call.is_usrsock_setup], by simp [Call.is_native_setup], ?_⟩
      intro _ _
      refine ⟨setup, _, hs, rfl, ?_, ?_⟩
      · rw [hcall]
        exact he
      · simp [Call.is_usrsock_setup]
    · rw [hc]
      refine ⟨by simp [Call.is_usrsock_setup], by simp [Call.is_native_setup], ?_⟩
      intro _ _
      refine ⟨setup, _, hs, rfl, ?_, ?_⟩
      · rw [hcall]
        exact he
      · simp [Call.is_usrsock_setup]
  · have hg : int_and type (Int.lnot (type_bits cfg)) ≠ 0 := hvalid
    unfold psock_socket at h
    rw [if_pos hg] at h
    cases h
    refine ⟨Nat.zero_le 1, Nat.zero_le 1, ?_⟩
    intro _ hex
    obtain ⟨c, hc, _⟩ := hex
    cases hc

/-- C18 at a sample: the usrsock setup answers `-ENOSYS` and the native
setup then succeeds: three calls, one of each kind. -/
theorem psock_socket_no_retry_witness :
    ([Call.usrsock_setup
        (usrsock_arg (sample_cfg true (failing_setup (-38)) inet_setup) 2 1 0 sock0),
      Call.net_sockif 2 1 0,
      Call.si_setup 100
        { s_domain := 2, s_type := 1, s_proto := 0, s_conn := none,
          s_sockif := some 100 }].filter Call.is_usrsock_setup).length ≤ 1
    ∧ ([Call.usrsock_setup
        (usrsock_arg (sample_cfg true (failing_setup (-38)) inet_setup) 2 1 0 sock0),
      Call.net_sockif 2 1 0,
      Call.si_setup 100
        { s_domain := 2, s_type := 1, s_proto := 0, s_conn := none,
          s_sockif := some 100 }].filter Call.is_native_setup).length ≤ 1
    ∧ ∃ (setup : Setup) (rest : List Call),
        (sample_cfg true (failing_setup (-38)) inet_setup).g_usrsock_sockif.si_setup
          = some setup
        ∧ [Call.usrsock_setup
            (usrsock_arg (sample_cfg true (failing_setup (-38)) inet_setup) 2 1 0 sock0),
           Call.net_sockif 2 1 0,
           Call.si_setup 100
            { s_domain := 2, s_type := 1, s_proto := 0, s_conn := none,
              s_sockif := some 100 }]
          = Call.usrsock_setup
              (usrsock_arg (sample_cfg true (failing_setup (-38)) inet_setup) 2 1 0 sock0)
            :: rest
        ∧ fallback_code (sample_cfg true (failing_setup (-38)) inet_setup)
            (setup
              (usrsock_arg (sample_cfg true (failing_setup (-38)) inet_setup) 2 1 0 sock0)
              mem0).1
        ∧ ∀ c ∈ rest, c.is_usrsock_setup = false :=
  have h := psock_socket_no_retry (sample_cfg true (failing_setup (-38)) inet_setup) 2 1 0
    sock0 mem0
    ⟨0, { s_domain := 2, s_type := 1, s_proto := 0, s_conn := some 1,
          s_sockif := some 100 },
      apply_flags (sample_cfg true (failing_setup (-38)) inet_setup) 1 1
        (Function.update mem0 1 { s_flags := 0 }),
      [Call.usrsock_setup
        (usrsock_arg (sample_cfg true (failing_setup (-38)) inet_setup) 2 1 0 sock0),
       Call.net_sockif 2 1 0,
       Call.si_setup 100
        { s_domain := 2, s_type := 1, s_proto := 0, s_conn := none,
          s_sockif := some 100 }]⟩
    rfl
  ⟨h.1, h.2.1, h.2.2 rfl ⟨Call.net_sockif 2 1 0, by simp, Or.inl rfl⟩⟩

/-- C19, as stated, fails: the usrsock setup answers `-ENETDOWN` (`-100`)
for `socket(PF_LOCAL, SOCK_STREAM, 0)`, nothing is registered for the
triple, the call fails with `-100`, and `s_sockif` on return is the
usrsock descriptor (address 200). -/
theorem psock_socket_keeps_usrsock_binding_example :
    ∃ out : Outcome,
      psock_socket (sample_cfg true (failing_setup (-100)) inet_setup) 1 1 0 sock0 mem0
        = some out
      ∧ out.ret = -100
      ∧ out.psock.s_sockif
          = some (sample_cfg true (failing_setup (-100)) inet_setup).g_usrsock_sockif.addr :=
  ⟨⟨-100, usrsock_arg (sample_cfg true (failing_setup (-100)) inet_setup) 1 1 0 sock0, mem0,
      [Call.usrsock_setup
        (usrsock_arg (sample_cfg true (failing_setup (-100)) inet_setup) 1 1 0 sock0),
       Call.net_sockif 1 1 0]⟩, rfl, rfl, rfl⟩

/-- C19, amended: when the usrsock setup returns a fallback code,
`psock_socket` goes on to the lookup (of `domain` and the stored type and
protocol) with the usrsock binding in place.  If no native descriptor
matches, the call fails with that code and `s_sockif`
on return is still the usrsock descriptor; if one matches, the binding is
replaced by it before its setup is called (line 142).  The usrsock setup is
taken to leave the caller's fields of the socket alone and the errno values
to be positive. -/
theorem psock_socket_fallback_binding (cfg : Config) (domain type protocol : Int)
    (psock : socket) (mem : Mem) (usetup : Setup) (e : Int) (ps1 : socket) (mem1 : Mem)
    (hcfg : cfg.CONFIG_NET_USRSOCK = true) (hvalid : valid_type cfg type)
    (hpos : errno_positive cfg)
    (hsetup : cfg.g_usrsock_sockif.si_setup = some usetup)
    (hcall : usetup (usrsock_arg cfg domain type protocol psock) mem = (e, ps1, mem1))
    (he : fallback_code cfg e)
    (hkeep1 : keeps_socket (usrsock_arg cfg domain type protocol psock) ps1) :
    (cfg.net_sockif domain (stored_type cfg type) (stored_proto cfg protocol) = none →
        psock_socket cfg domain type protocol psock mem
            = some ⟨e, ps1, mem1,
                [Call.usrsock_setup (usrsock_arg cfg domain type protocol psock),
                 Call.net_sockif domain (stored_type cfg type) (stored_proto cfg protocol)]⟩
          ∧ ps1.s_sockif = some cfg.g_usrsock_sockif.addr)
    ∧ (∀ (sockif : sock_intf_s) (out : Outcome),
        cfg.net_sockif domain (stored_type cfg type) (stored_proto cfg protocol) = some sockif →
        psock_socket cfg domain type protocol psock mem = some out →
        out.calls = [Call.usrsock_setup (usrsock_arg cfg domain type protocol psock),
                     Call.net_sockif domain (stored_type cfg type) (stored_proto cfg protocol),
                     Call.si_setup sockif.addr (native_arg sockif ps1)]
          ∧ (native_arg sockif ps1).s_sockif = some sockif.addr) := by
  have ht : (ps1.s_type : Int) = stored_type cfg type := by rw [hkeep1]; rfl
  have hp : (ps1.s_proto : Int) = stored_proto cfg protocol := by rw [hkeep1]; rfl
  have hs : ps1.s_sockif = some cfg.g_usrsock_sockif.addr := by rw [hkeep1]; rfl
  have hrun := psock_socket_of_usrsock_fallback cfg domain type protocol psock mem usetup e
    ps1 mem1 hcfg hvalid hsetup hcall (fallback_code_ne_zero cfg e hpos he) he
  constructor
  · intro hnone
    have hnone1 : cfg.net_sockif domain ps1.s_type ps1.s_proto = none := by
      rw [ht, hp]; exact hnone
    refine ⟨?_, hs⟩
    rw [hrun, native_no_match cfg domain type e ps1 mem1 _ hnone1, ht, hp]
    simp [hcfg]
  · intro sockif out hl hout
    have hl1 : cfg.net_sockif domain ps1.s_type ps1.s_proto = some sockif := by
      rw [ht, hp]; exact hl
    rw [hrun] at hout
    refine ⟨?_, rfl⟩
    rcases native_calls cfg domain type e ps1 mem1 _ out hout with hc | ⟨sockif2, hl2, hc⟩
    · exfalso
      unfold psock_socket_native at hout
      simp only [hl1] at hout
      cases hs2 : sockif.si_setup with
      | none => simp [hs2] at hout
      | some f =>
        simp only [hs2] at hout
        split at hout
        · split at hout
          · cases hout
          · cases hout
            simp at hc
        · cases hout
          simp at hc
    · rw [hl1] at hl2
      cases hl2
      rw [hc, ht, hp]
      rfl

/-- C19, amended, at a sample: the usrsock setup answers `-ENETDOWN`
(`-100`) for `socket(PF_LOCAL, SOCK_STREAM, 0)` and nothing is
registered. -/
theorem psock_socket_fallback_binding_witness :
    psock_socket (sample_cfg true (failing_setup (-100)) inet_setup) 1 1 0 sock0 mem0
        = some ⟨-100,
            usrsock_arg (sample_cfg true (failing_setup (-100)) inet_setup) 1 1 0 sock0,
            mem0,
            [Call.usrsock_setup
              (usrsock_arg (sample_cfg true (failing_setup (-100)) inet_setup) 1 1 0 sock0),
             Call.net_sockif 1 1 0]⟩
      ∧ (some 200 : Option Nat) = some 200 :=
  (psock_socket_fallback_binding (sample_cfg true (failing_setup (-100)) inet_setup) 1 1 0
    sock0 mem0 (failing_setup (-100)) (-100)
    (usrsock_arg (sample_cfg true (failing_setup (-100)) inet_setup) 1 1 0 sock0) mem0
    rfl (by decide) (by decide) rfl rfl (by decide) (by decide)).1 rfl

end NetSocket

namespace ProcfsRoute

/-! ## `route_open` refuses write access -/

/-- Two integers with a common bit have a non-zero AND. -/
theorem int_and_ne_zero_of_common_bit (a b : Int) (i : Nat)
    (ha : Int.testBit a i = true) (hb : Int.testBit b i = true) :
    NetSocket.int_and a b ≠ 0 := by
  intro h0
  have h := NetSocket.testBit_int_and a b i
  rw [h0, NetSocket.int_testBit_zero, ha, hb] at h
  simp at h

/-- Two integers without a common bit have a zero AND. -/
theorem int_and_eq_zero_of_no_common_bit (a b : Int)
    (h : ∀ i : Nat, Int.testBit b i = true → Int.testBit a i = false) :
    NetSocket.int_and a b = 0 := by
  apply NetSocket.int_eq_of_testBit_eq
  intro i
  rw [NetSocket.testBit_int_and, NetSocket.int_testBit_zero]
  cases hb : Int.testBit b i
  · simp
  · rw [h i hb]
    rfl

/-- C16: for every `relpath` and every `oflags` that has a bit of
`O_WRONLY` set or no bit of `O_RDONLY` set, `route_open` returns `-EACCES`,
requests no allocation, writes no container and leaves the file structure,
`f_priv` included, as it was. -/
theorem route_open_write_access (cfg : Config) (filep : file) (relpath : String)
    (oflags : Int) (mode : Nat)
    (h : (∃ i : Nat, Int.testBit cfg.O_WRONLY i = true ∧ Int.testBit oflags i = true)
      ∨ (∀ i : Nat, Int.testBit cfg.O_RDONLY i = true → Int.testBit oflags i = false)) :
    route_open cfg filep relpath oflags mode = ⟨-(cfg.EACCES : Int), filep, [], none⟩ := by
  have hg : NetSocket.int_and oflags cfg.O_WRONLY ≠ 0
      ∨ NetSocket.int_and oflags cfg.O_RDONLY = 0 := by
    rcases h with ⟨i, hw, ho⟩ | hr
    · exact Or.inl (int_and_ne_zero_of_common_bit oflags cfg.O_WRONLY i ho hw)
    · exact Or.inr (int_and_eq_zero_of_no_common_bit oflags cfg.O_RDONLY hr)
  unfold route_open
  rw [if_pos hg]

/-- C16 at a sample: `open("net/route/ipv4", O_RDWR)` with
`O_RDWR = O_RDONLY | O_WRONLY = 3`, on a file whose `f_priv` is 7. -/
theorem route_open_write_access_witness :
    route_open sample_cfg { f_priv := some 7 } "net/route/ipv4" 3 0
      = ⟨-13, { f_priv := some 7 }, [], none⟩ :=
  route_open_write_access sample_cfg { f_priv := some 7 } "net/route/ipv4" 3 0
    (Or.inl ⟨1, by decide, by decide⟩)

/-! ## The lines fit the line buffer -/

/-- A number below `10 ^ k` has at most `k` decimal digits. -/
theorem utoa_digits_length_le (fuel : Nat) :
    ∀ (n k : Nat), 0 < k → n < 10 ^ k → (utoa_digits fuel n).length ≤ k := by
  induction fuel with
  | zero =>
    intro n k _ _
    simp [utoa_digits]
  | succ fuel ih =>
    intro n k hk hn
    unfold utoa_digits
    by_cases h10 : n < 10
    · rw [if_pos h10]
      simpa using hk
    · rw [if_neg h10, List.length_append, List.length_singleton]
      obtain ⟨j, rfl⟩ : ∃ j, k = j + 1 := ⟨k - 1, by omega⟩
      have hj : 0 < j := by
        rcases Nat.eq_zero_or_pos j with h0 | hpos
        · subst h0
          simp at hn
          omega
        · exact hpos
      have hdiv : n / 10 < 10 ^ j := by
        rw [Nat.div_lt_iff_lt_mul (by decide)]
        rw [Nat.pow_succ] at hn
        exact hn
      have := ih (n / 10) j hj hdiv
      omega

/-- With sequence numbers up to 32767 the `%4u` field takes at most five
characters. -/
theorem fmt_unsigned_length_le (n : Nat) (hn : n ≤ 32767) :
    (fmt_unsigned 4 n).length ≤ 5 := by
  have h := utoa_digits_length_le (n + 1) n 5 (by decide) (by omega)
  unfold fmt_unsigned
  rw [List.length_append, List.length_replicate]
  omega

/-- A text of at most 15 characters fills a `%-16s` field exactly. -/
theorem fmt_left_length (str : List Char) (h : str.length ≤ 15) :
    (fmt_left 16 str).length = 16 := by
  unfold fmt_left
  rw [List.length_append, List.length_replicate]
  omega

/-- C17: with `STATUS_LINELEN = 58`, the IPv4 header line, every IPv4 entry
line (sequence number 1..32767, address texts of at most 15 characters) and
each of the three IPv6 entry lines (sequence number 1..32767, address text
of at most 39 characters) take at most 58 bytes with the terminating NUL,
so that the value `vsnprintf` returns for each is less than the `linelen`
of `STATUS_LINELEN` that `route_ipv4_table` and `route_ipv6_table` set. -/
theorem route_lines_fit (seq : Nat) (target netmask router addr : List Char)
    (hseq : 1 ≤ seq ∧ seq ≤ 32767)
    (h4 : target.length ≤ 15 ∧ netmask.length ≤ 15 ∧ router.length ≤ 15)
    (h6 : addr.length ≤ 39) :
    (ipv4_header_line.length + 1 ≤ STATUS_LINELEN
      ∧ (ipv4_entry_line seq target netmask router).length + 1 ≤ STATUS_LINELEN
      ∧ (ipv6_target_line seq addr).length + 1 ≤ STATUS_LINELEN
      ∧ (ipv6_netmask_line addr).length + 1 ≤ STATUS_LINELEN
      ∧ (ipv6_router_line addr).length + 1 ≤ STATUS_LINELEN)
    ∧ (vsnprintf_result STATUS_LINELEN ipv4_header_line < STATUS_LINELEN
      ∧ vsnprintf_result STATUS_LINELEN (ipv4_entry_line seq target netmask router)
          < STATUS_LINELEN
      ∧ vsnprintf_result STATUS_LINELEN (ipv6_target_line seq addr) < STATUS_LINELEN
      ∧ vsnprintf_result STATUS_LINELEN (ipv6_netmask_line addr) < STATUS_LINELEN
      ∧ vsnprintf_result STATUS_LINELEN (ipv6_router_line addr) < STATUS_LINELEN) := by
  have hu := fmt_unsigned_length_le seq hseq.2
  have ht := fmt_left_length target h4.1
  have hn := fmt_left_length netmask h4.2.1
  have hr := fmt_left_length router h4.2.2
  have hhead : ipv4_header_line.length = 55 := by decide
  have hentry : (ipv4_entry_line seq target netmask router).length
      = (fmt_unsigned 4 seq).length + 51 := by
    unfold ipv4_entry_line
    simp only [List.length_append, ht, hn, hr]
    rfl
  have h6t : (ipv6_target_line seq addr).length
      = (fmt_unsigned 4 seq).length + addr.length + 11 := by
    unfold ipv6_target_line
    simp only [List.length_append]
    have : ". TARGET  ".toList.length = 10 := by decide
    have : "\n".toList.length = 1 := by decide
    omega
  have h6n : (ipv6_netmask_line addr).length = addr.length + 15 := by
    unfold ipv6_netmask_line
    simp only [List.length_append]
    have : "      NETMASK ".toList.length = 14 := by decide
    have : "\n".toList.length = 1 := by decide
    omega
  have h6r : (ipv6_router_line addr).length = addr.length + 15 := by
    unfold ipv6_router_line
    simp only [List.length_append]
    have : "      ROUTER  ".toList.length = 14 := by decide
    have : "\n".toList.length = 1 := by decide
    omega
  unfold vsnprintf_result STATUS_LINELEN
  refine ⟨⟨?_, ?_, ?_, ?_, ?_⟩, ?_, ?_, ?_, ?_, ?_⟩ <;> omega

/-- C17 at a sample: sequence number 32767 with the longest address
texts. -/
theorem route_lines_fit_witness :
    (ipv4_header_line.length + 1 ≤ STATUS_LINELEN
      ∧ (ipv4_entry_line 32767 "255.255.255.255".toList "255.255.255.255".toList
          "255.255.255.255".toList).length + 1 ≤ STATUS_LINELEN
      ∧ (ipv6_target_line 32767
          "ffff:ffff:ffff:ffff:ffff:ffff:ffff:ffff".toList).length + 1 ≤ STATUS_LINELEN
      ∧ (ipv6_netmask_line
          "ffff:ffff:ffff:ffff:ffff:ffff:ffff:ffff".toList).length + 1 ≤ STATUS_LINELEN
      ∧ (ipv6_router_line
          "ffff:ffff:ffff:ffff:ffff:ffff:ffff:ffff".toList).length + 1 ≤ STATUS_LINELEN)
    ∧ (vsnprintf_result STATUS_LINELEN ipv4_header_line < STATUS_LINELEN
      ∧ vsnprintf_result STATUS_LINELEN
          (ipv4_entry_line 32767 "255.255.255.255".toList "255.255.255.255".toList
            "255.255.255.255".toList) < STATUS_LINELEN
      ∧ vsnprintf_result STATUS_LINELEN
          (ipv6_target_line 32767 "ffff:ffff:ffff:ffff:ffff:ffff:ffff:ffff".toList)
          < STATUS_LINELEN
      ∧ vsnprintf_result STATUS_LINELEN
          (ipv6_netmask_line "ffff:ffff:ffff:ffff:ffff:ffff:ffff:ffff".toList)
          < STATUS_LINELEN
      ∧ vsnprintf_result STATUS_LINELEN
          (ipv6_router_line "ffff:ffff:ffff:ffff:ffff:ffff:ffff:ffff".toList)
          < STATUS_LINELEN) :=
  route_lines_fit 32767 "255.255.255.255".toList "255.255.255.255".toList
    "255.255.255.255".toList "ffff:ffff:ffff:ffff:ffff:ffff:ffff:ffff".toList
    (by decide) (by decide) (by decide)

end ProcfsRoute

namespace Binfmt

/-! ## The two loops of `binfmt_copyargv` -/

theorem two_pow_pos (w : Nat) : 0 < 2 ^ w := Nat.pos_pow_of_pos w (by decide)

/-- The counting loop on a list that stays within `MAX_EXEC_ARGS`. -/
theorem count_args_within (cfg : Config) :
    ∀ (args : List cstring) (nargs argsize : Nat),
      nargs + args.length ≤ MAX_EXEC_ARGS → argsize < 2 ^ cfg.size_bits →
      count_args cfg args nargs argsize
        = some (nargs + args.length, (argsize + args_size args) % 2 ^ cfg.size_bits) := by
  intro args
  induction args with
  | nil =>
    intro nargs argsize _ hsz
    simp [count_args, args_size, Nat.mod_eq_of_lt hsz]
  | cons str rest ih =>
    intro nargs argsize hn _
    have hn1 : ¬ nargs + 1 > MAX_EXEC_ARGS := by
      simp only [List.length_cons] at hn
      omega
    unfold count_args
    simp only [if_neg hn1]
    rw [ih (nargs + 1) _ (by simp only [List.length_cons] at hn; omega)
      (Nat.mod_lt _ (two_pow_pos cfg.size_bits)), Nat.mod_add_mod]
    have e1 : nargs + 1 + rest.length = nargs + (rest.length + 1) := by omega
    have e2 : argsize + (strlen str + 1) + args_size rest
        = argsize + (strlen str + 1 + args_size rest) := by omega
    simp only [List.length_cons, args_size, e1, e2]

/-- The counting loop on a list that exceeds `MAX_EXEC_ARGS`. -/
theorem count_args_beyond (cfg : Config) :
    ∀ (args : List cstring) (nargs argsize : Nat),
      nargs ≤ MAX_EXEC_ARGS → MAX_EXEC_ARGS < nargs + args.length →
      count_args cfg args nargs argsize = none := by
  intro args
  induction args with
  | nil =>
    intro nargs argsize h1 h2
    simp only [List.length_nil] at h2
    omega
  | cons str rest ih =>
    intro nargs argsize h1 h2
    unfold count_args
    by_cases hn1 : nargs + 1 > MAX_EXEC_ARGS
    · simp only [if_pos hn1]
    · simp only [if_neg hn1]
      apply ih
      · omega
      · simp only [List.length_cons] at h2
        omega

theorem string_bytes_length (str : cstring) : (string_bytes str).length = strlen str + 1 := by
  simp [string_bytes, strlen]

theorem copy_args_argvbuf_length :
    ∀ (args : List cstring) (ptr : Nat), (copy_args args ptr).1.length = args.length + 1 := by
  intro args
  induction args with
  | nil => intro ptr; rfl
  | cons str rest ih =>
    intro ptr
    simp only [copy_args, List.length_cons, ih]

theorem copy_args_data_length :
    ∀ (args : List cstring) (ptr : Nat), (copy_args args ptr).2.length = args_size args := by
  intro args
  induction args with
  | nil => intro ptr; rfl
  | cons str rest ih =>
    intro ptr
    simp only [copy_args, List.length_append, ih, string_bytes_length, args_size]

/-- Reading a string back from where it was stored with its NUL. -/
theorem takeWhile_string_bytes (str : cstring) (rest : List Nat) :
    (string_bytes str ++ rest).takeWhile (fun b => b ≠ 0)
      = str.takeWhile (fun b => b ≠ 0) := by
  unfold string_bytes
  induction str with
  | nil => simp [List.takeWhile]
  | cons b bs ih =>
    by_cases hb : b = 0
    · subst hb
      simp [List.takeWhile]
    · simp only [List.takeWhile_cons, hb, ne_eq, not_false_eq_true, decide_True, ite_true,
        List.cons_append, List.cons.injEq, true_and]
      exact ih

/-- The entry stored for the `i`-th string and the string found there: the
pointer is `ptr` plus the sizes of the strings before it, and the bytes at
that offset spell the `i`-th string. -/
theorem copy_args_entry :
    ∀ (args : List cstring) (ptr i : Nat) (str : cstring), args[i]? = some str →
      (copy_args args ptr).1[i]? = some (some (ptr + args_size (args.take i)))
      ∧ ((copy_args args ptr).2.drop (args_size (args.take i))).takeWhile (fun b => b ≠ 0)
          = str.takeWhile (fun b => b ≠ 0) := by
  intro args
  induction args with
  | nil =>
    intro ptr i str h
    simp at h
  | cons a rest ih =>
    intro ptr i str h
    cases i with
    | zero =>
      simp only [List.getElem?_cons_zero, Option.some.injEq] at h
      subst h
      constructor
      · simp [copy_args, args_size]
      · simp only [copy_args, List.take_zero, args_size, List.drop_zero]
        exact takeWhile_string_bytes _ _
    | succ j =>
      simp only [List.getElem?_cons_succ] at h
      obtain ⟨h1, h2⟩ := ih (ptr + (strlen a + 1)) j str h
      constructor
      · simp only [copy_args, List.getElem?_cons_succ, h1, List.take_succ_cons, args_size]
        congr 2
        omega
      · have hd : ∀ (k : Nat) (r : List Nat),
            List.drop (strlen a + 1 + k) (string_bytes a ++ r) = List.drop k r := by
          intro k r
          rw [← string_bytes_length a, List.drop_append]
        simp only [copy_args, List.take_succ_cons, args_size]
        rw [hd]
        exact h2

/-- The entry after the last string is `NULL`. -/
theorem copy_args_terminator :
    ∀ (args : List cstring) (ptr : Nat), (copy_args args ptr).1[args.length]? = some none := by
  intro args
  induction args with
  | nil => intro ptr; rfl
  | cons a rest ih =>
    intro ptr
    simp only [copy_args, List.length_cons, List.getElem?_cons_succ, ih]

/-- A list with at least one string has a non-zero size. -/
theorem args_size_pos (args : List cstring) (h : 1 ≤ args.length) : 0 < args_size args := by
  cases args with
  | nil => simp at h
  | cons a rest =>
    simp only [args_size]
    omega

/-- The call on a list of 1 to `MAX_EXEC_ARGS` strings whose sizes fit
`size_t`, when the allocation succeeds. -/
theorem binfmt_copyargv_done (cfg : Config) (copy : Option Nat) (args : List cstring)
    (base : Nat)
    (hlen : 1 ≤ args.length ∧ args.length ≤ MAX_EXEC_ARGS)
    (hfit : (args.length + 1) * cfg.sizeof_ptr + args_size args < 2 ^ cfg.size_bits)
    (hmalloc : cfg.kmm_malloc ((args.length + 1) * cfg.sizeof_ptr + args_size args)
      = some base) :
    binfmt_copyargv cfg copy (some args)
      = some ⟨OK, some base, [(args.length + 1) * cfg.sizeof_ptr + args_size args],
          some ⟨base, (args.length + 1) * cfg.sizeof_ptr,
            (copy_args args (base + (args.length + 1) * cfg.sizeof_ptr)).1,
            (copy_args args (base + (args.length + 1) * cfg.sizeof_ptr)).2⟩⟩ := by
  have hsz : args_size args % 2 ^ cfg.size_bits = args_size args :=
    Nat.mod_eq_of_lt (by omega)
  have hcount : count_args cfg args 0 0 = some (args.length, args_size args) := by
    rw [count_args_within cfg args 0 0 (by omega) (two_pow_pos cfg.size_bits),
      Nat.zero_add, Nat.zero_add, hsz]
  have hav : ((args.length + 1) * cfg.sizeof_ptr) % 2 ^ cfg.size_bits
      = (args.length + 1) * cfg.sizeof_ptr := Nat.mod_eq_of_lt (by omega)
  have htot : ((args.length + 1) * cfg.sizeof_ptr + args_size args) % 2 ^ cfg.size_bits
      = (args.length + 1) * cfg.sizeof_ptr + args_size args := Nat.mod_eq_of_lt hfit
  have hpos := args_size_pos args hlen.1
  unfold binfmt_copyargv
  simp only [hcount, hav, htot, hmalloc, if_pos hpos]
  rw [if_pos]
  rw [copy_args_argvbuf_length, copy_args_data_length]
  exact ⟨le_refl _, le_refl _⟩

/-- The size of `n` copies of one string. -/
theorem args_size_replicate (n : Nat) (str : cstring) :
    args_size (List.replicate n str) = n * (strlen str + 1) := by
  induction n with
  | zero => simp [args_size]
  | succ n ih =>
    simp only [List.replicate_succ, args_size, ih]
    rw [Nat.succ_mul]
    omega

/-! ## Properties of `binfmt_copyargv` -/

/-- The length of a string of `n` copies of a non-zero byte. -/
theorem strlen_replicate (n b : Nat) (hb : b ≠ 0) : strlen (List.replicate n b) = n := by
  unfold strlen
  induction n with
  | zero => rfl
  | succ n ih =>
    simp only [List.replicate_succ, List.takeWhile_cons, hb, ne_eq, not_false_eq_true,
      decide_True, ite_true, List.length_cons, ih]

/-- What the call does when the sizes fit `size_t`: for a list of 1 to 256
strings and a successful allocation it returns `OK` and stores in `*copy`
the address of a buffer whose pointer array has one entry per string, in
order, each pointing into the string area at the offset where bytes that
spell the same string as `argv[i]` were stored, followed by a `NULL`
entry. -/
theorem binfmt_copyargv_copies (cfg : Config) (copy : Option Nat) (args : List cstring)
    (base : Nat)
    (hlen : 1 ≤ args.length ∧ args.length ≤ 256)
    (hfit : (args.length + 1) * cfg.sizeof_ptr + args_size args < 2 ^ cfg.size_bits)
    (hmalloc : cfg.kmm_malloc ((args.length + 1) * cfg.sizeof_ptr + args_size args)
      = some base) :
    ∃ blk : ArgBlock,
      binfmt_copyargv cfg copy (some args)
        = some ⟨OK, some base, [(args.length + 1) * cfg.sizeof_ptr + args_size args],
            some blk⟩
      ∧ blk.base = base
      ∧ blk.argvsize = (args.length + 1) * cfg.sizeof_ptr
      ∧ blk.argvbuf.length = args.length + 1
      ∧ blk.data.length = args_size args
      ∧ (∀ (i : Nat) (str : cstring), args[i]? = some str →
          blk.argvbuf[i]?
              = some (some (blk.base + blk.argvsize + args_size (args.take i)))
            ∧ blk.string_at (blk.base + blk.argvsize + args_size (args.take i))
                = str.takeWhile (fun b => b ≠ 0))
      ∧ blk.argvbuf[args.length]? = some none := by
  refine ⟨_, binfmt_copyargv_done cfg copy args base hlen hfit hmalloc, rfl, rfl,
    copy_args_argvbuf_length _ _, copy_args_data_length _ _, ?_, copy_args_terminator _ _⟩
  intro i str hi
  obtain ⟨h1, h2⟩ := copy_args_entry args (base + (args.length + 1) * cfg.sizeof_ptr) i str hi
  refine ⟨h1, ?_⟩
  unfold ArgBlock.string_at
  simp only [Nat.add_sub_cancel_left]
  exact h2

/-- C13 (the code at the failing inputs), on a target with a 32-bit
`size_t` and 4-byte pointers.  An `argv` list of 256 entries that each
point at a string of 16777215 characters: the sizes add up to `2 ^ 32`,
`argsize` wraps to 0, the test of line 110 fails and the call returns `OK`
with `*copy` set to `NULL` and nothing allocated, so no string is copied.
With strings of 16777216 characters `argsize` wraps to 256, the buffer
requested has 1284 bytes, the allocation succeeds, and the copy loop
stores `2 ^ 32 + 256` bytes after the pointer array: it runs past the
allocation (no result in the embedding). -/
theorem binfmt_copyargv_size_wrap :
    binfmt_copyargv sample_cfg (some 5)
        (some (List.replicate 256 (List.replicate 16777215 65)))
      = some ⟨OK, none, [], none⟩
    ∧ (count_args sample_cfg (List.replicate 256 (List.replicate 16777216 65)) 0 0
          = some (256, 256)
        ∧ sample_cfg.kmm_malloc 1284 = some 4096
        ∧ binfmt_copyargv sample_cfg (some 5)
            (some (List.replicate 256 (List.replicate 16777216 65))) = none) := by
  have h1 : count_args sample_cfg (List.replicate 256 (List.replicate 16777215 65)) 0 0
      = some (256, 0) := by
    rw [count_args_within sample_cfg _ 0 0
      (by rw [List.length_replicate]; decide) (two_pow_pos _), List.length_replicate,
      args_size_replicate, strlen_replicate _ _ (by decide)]
    rfl
  have h2 : count_args sample_cfg (List.replicate 256 (List.replicate 16777216 65)) 0 0
      = some (256, 256) := by
    rw [count_args_within sample_cfg _ 0 0
      (by rw [List.length_replicate]; decide) (two_pow_pos _), List.length_replicate,
      args_size_replicate, strlen_replicate _ _ (by decide)]
    rfl
  refine ⟨?_, h2, rfl, ?_⟩
  · unfold binfmt_copyargv
    simp only [h1]
    rfl
  · unfold binfmt_copyargv
    simp only [h2]
    have hm : sample_cfg.kmm_malloc ((((256 + 1) * sample_cfg.sizeof_ptr) % 2 ^ sample_cfg.size_bits
        + 256) % 2 ^ sample_cfg.size_bits) = some 4096 := rfl
    simp only [hm, copy_args_argvbuf_length, copy_args_data_length, args_size_replicate,
      strlen_replicate _ _ (show (65 : Nat) ≠ 0 by decide), List.length_replicate]
    rfl

/-- The copy of `{"ls", "-l", NULL}` on a 32-bit target. -/
theorem binfmt_copyargv_copies_witness :
    ∃ blk : ArgBlock,
      binfmt_copyargv sample_cfg (some 5) (some sample_argv)
        = some ⟨OK, some 4096, [(sample_argv.length + 1) * 4 + args_size sample_argv],
            some blk⟩
      ∧ blk.base = 4096
      ∧ blk.argvsize = (sample_argv.length + 1) * 4
      ∧ blk.argvbuf.length = sample_argv.length + 1
      ∧ blk.data.length = args_size sample_argv
      ∧ (∀ (i : Nat) (str : cstring), sample_argv[i]? = some str →
          blk.argvbuf[i]?
              = some (some (blk.base + blk.argvsize + args_size (sample_argv.take i)))
            ∧ blk.string_at (blk.base + blk.argvsize + args_size (sample_argv.take i))
                = str.takeWhile (fun b => b ≠ 0))
      ∧ blk.argvbuf[sample_argv.length]? = some none :=
  binfmt_copyargv_copies sample_cfg (some 5) sample_argv 4096 (by decide) (by decide) rfl

/-- C14 (the code at the failing inputs): for a `NULL` `argv`, and for an
`argv` whose first entry is `NULL`, `binfmt_copyargv` returns `OK` and the
value stored in `*copy` is `NULL`, whatever `*copy` held and whatever the
allocator would do. -/
theorem binfmt_copyargv_null_copy (cfg : Config) (copy : Option Nat) :
    binfmt_copyargv cfg copy none = some ⟨OK, none, [], none⟩
    ∧ binfmt_copyargv cfg copy (some []) = some ⟨OK, none, [], none⟩ := by
  constructor
  · rfl
  · simp [binfmt_copyargv, count_args]

/-- C15: for every `argv` list with more than 256 strings before its
terminator `binfmt_copyargv` returns `-E2BIG` with no allocation requested
and `*copy` as it was; a list of exactly 256 strings is not rejected so:
whenever the call returns, it returns `OK` or `-ENOMEM`, which is not
`-E2BIG` for a positive `E2BIG` other than `ENOMEM`. -/
theorem binfmt_copyargv_limit (cfg : Config) (copy : Option Nat) (args : List cstring) :
    (256 < args.length →
        binfmt_copyargv cfg copy (some args) = some ⟨-(cfg.E2BIG : Int), copy, [], none⟩)
    ∧ (args.length = 256 →
        ∀ out : CopyOutcome, binfmt_copyargv cfg copy (some args) = some out →
          (out.ret = OK ∨ out.ret = -(cfg.ENOMEM : Int))
          ∧ (0 < cfg.E2BIG → cfg.E2BIG ≠ cfg.ENOMEM → out.ret ≠ -(cfg.E2BIG : Int))) := by
  constructor
  · intro hlen
    have hc := count_args_beyond cfg args 0 0 (Nat.zero_le _)
      (by rw [Nat.zero_add]; exact hlen)
    unfold binfmt_copyargv
    simp only [hc]
  · intro hlen out hout
    have hc := count_args_within cfg args 0 0
      (by rw [Nat.zero_add, hlen]; exact le_refl _) (two_pow_pos cfg.size_bits)
    have hret : out.ret = OK ∨ out.ret = -(cfg.ENOMEM : Int) := by
      unfold binfmt_copyargv at hout
      simp only [hc] at hout
      split at hout
      · split at hout
        · cases hout
          exact Or.inr rfl
        · split at hout
          · cases hout
            exact Or.inl rfl
          · cases hout
      · cases hout
        exact Or.inl rfl
    refine ⟨hret, ?_⟩
    intro hpos hne
    unfold OK at hret
    rcases hret with h | h <;> omega

/-- C15 at a sample: 257 copies of `"A"` are refused, 256 copies are
copied. -/
theorem binfmt_copyargv_limit_witness :
    binfmt_copyargv sample_cfg (some 5) (some (List.replicate 257 [65]))
        = some ⟨-7, some 5, [], none⟩
    ∧ ((OK = OK ∨ OK = -(12 : Int)) ∧ ((0 : Nat) < 7 → (7 : Nat) ≠ 12 → OK ≠ -(7 : Int))) :=
  ⟨(binfmt_copyargv_limit sample_cfg (some 5) (List.replicate 257 [65])).1
      (by rw [List.length_replicate]; decide),
    (binfmt_copyargv_limit sample_cfg (some 5) (List.replicate 256 [65])).2
      (List.length_replicate 256 _) _
      (binfmt_copyargv_done sample_cfg (some 5) (List.replicate 256 [65]) 4096
        (by rw [List.length_replicate]; decide)
        (by rw [List.length_replicate, args_size_replicate]; decide)
        (by rw [List.length_replicate, args_size_replicate]; rfl))⟩

end Binfmt
